import Mathlib

/-!
Verification of the report-computation layer of the Transaction Data Analysis
dashboard (`src/app.py`).

The program is a single-file pandas/streamlit application.  This file gives a
shallow embedding of its data model and of the computation inside each report
branch, and proves the specification claims about them.

Modelling conventions (pandas semantics made explicit):

* A DataFrame cell is `Cell`: a rational number (pandas numeric values), a
  string (object dtype), a parsed calendar date (datetime64), or the missing
  marker (NaN/NaT).
* A DataFrame is an ordered association list of column name to column values
  (`Dataset`).  Row alignment is positional, as in pandas.
* `pd.to_numeric(s, errors="coerce")` is `coerceNum`: numbers pass through,
  strings are parsed as decimal literals, everything unparsable becomes
  missing.  The parser covers optionally signed decimal literals with
  optional fractional part and surrounding spaces; exotic spellings accepted
  by pandas (scientific notation, thousands separators) are abstracted away —
  no claim depends on which particular strings parse, only on the
  parse-or-missing dichotomy.
* `pd.to_datetime(s, errors="coerce")` is `coerceDate`, with an ISO
  `YYYY-MM-DD` parser standing in for the pandas date parser (same
  abstraction remark).
* `groupby(key)` uses the pandas default `dropna=True`: rows whose key is
  missing are excluded before aggregation.  Group-key order is modelled as
  first occurrence; pandas sorts group keys, but every ordered fact claimed
  below is about value-sorted output or is order-insensitive, never about
  raw group-key order.
* Summing a raw (uncoerced) object-dtype column skips missing values; if all
  present values are numeric it adds them, if all are strings it concatenates
  them, and on a mixture pandas raises `TypeError`.  Taking the mean of a
  column raises whenever a present string is among the aggregated values.
  These raise-cases are the `err` result below; a branch that evaluates to
  `err` is a branch in which the Python code raises an exception.
* All rational arithmetic is expressed through `mkRat`-based helpers
  (`rAdd`, `rMul`, ...) so that every definition evaluates inside the kernel;
  bridging lemmas relate them to the ordinary `Rat` operations.
-/

/-- A single DataFrame cell: numeric value, string, parsed date
(year, month, day), or the missing marker (NaN/NaT). -/
inductive Cell where
  | num (q : Rat)
  | str (s : String)
  | date (y m d : Nat)
  | missing
deriving DecidableEq

/-- Computation result of one report branch: `ok` with a value, or `err`
when the corresponding Python code raises an exception. -/
inductive Res (α : Type) where
  | ok (a : α)
  | err
deriving DecidableEq

namespace Cell

def isMissing : Cell → Bool
  | .missing => true
  | _ => false

def isNum : Cell → Bool
  | .num _ => true
  | _ => false

def isStr : Cell → Bool
  | .str _ => true
  | _ => false

end Cell

/-- Numeric payload of a cell, if any. -/
def numOf : Cell → Option Rat
  | .num q => some q
  | _ => none

/-- String payload of a cell, if any. -/
def strOf : Cell → Option String
  | .str s => some s
  | _ => none

/-- Pandas elementwise equality `series == value`: a missing value compares
unequal to everything (NaN == x is False), otherwise structural equality. -/
def cellEqB : Cell → Cell → Bool
  | .num a, .num b => decide (a = b)
  | .str a, .str b => decide (a = b)
  | .date y m d, .date y2 m2 d2 => decide (y = y2) && decide (m = m2) && decide (d = d2)
  | _, _ => false

/-! ### Kernel-friendly rational arithmetic

Core `Rat` operations do not reduce inside the kernel, so sums, means and
quantiles below are phrased through `mkRat`.  The `_eq` lemmas identify them
with the ordinary operations for use in specification statements. -/

def rAdd (a b : Rat) : Rat := mkRat (a.num * b.den + b.num * a.den) (a.den * b.den)

def rMul (a b : Rat) : Rat := mkRat (a.num * b.num) (a.den * b.den)

def rSub (a b : Rat) : Rat := mkRat (a.num * b.den - b.num * a.den) (a.den * b.den)

/-- Division of a rational by a natural number (used for means). -/
def rDivNat (a : Rat) (n : Nat) : Rat := mkRat a.num (a.den * n)

/-- Boolean comparison of rationals by cross multiplication (kernel-reducible). -/
def ratLeB (a b : Rat) : Bool := decide (a.num * (b.den : Int) ≤ b.num * (a.den : Int))

theorem rat_mul_den (a : Rat) : a * (a.den : Rat) = (a.num : Rat) := by
  have ha : ((a.den : Rat)) ≠ 0 := by positivity
  nth_rewrite 1 [← Rat.num_div_den a]
  exact div_mul_cancel₀ _ ha

theorem rAdd_eq (a b : Rat) : rAdd a b = a + b := by
  have ha : ((a.den : Rat)) ≠ 0 := by positivity
  have hb : ((b.den : Rat)) ≠ 0 := by positivity
  rw [rAdd, Rat.mkRat_eq_div]
  push_cast
  rw [eq_comm, eq_div_iff (mul_ne_zero ha hb)]
  calc (a + b) * ((a.den : Rat) * (b.den : Rat))
      = (a * (a.den : Rat)) * (b.den : Rat) + (b * (b.den : Rat)) * (a.den : Rat) := by ring
    _ = (a.num : Rat) * (b.den : Rat) + (b.num : Rat) * (a.den : Rat) := by
        rw [rat_mul_den, rat_mul_den]

theorem rDivNat_eq (a : Rat) (n : Nat) : rDivNat a n = a / n := by
  rw [rDivNat, Rat.mkRat_eq_div]
  push_cast
  conv_rhs => rw [← Rat.num_div_den a, div_div]

theorem ratLeB_iff (a b : Rat) : ratLeB a b = true ↔ a ≤ b := by
  rw [ratLeB, decide_eq_true_eq, ← Rat.le_def]

theorem ratLeB_total (a b : Rat) : ratLeB a b = true ∨ ratLeB b a = true := by
  rcases le_total a b with h | h
  · exact Or.inl ((ratLeB_iff a b).mpr h)
  · exact Or.inr ((ratLeB_iff b a).mpr h)

theorem ratLeB_trans {a b c : Rat} (h1 : ratLeB a b = true) (h2 : ratLeB b c = true) :
    ratLeB a c = true :=
  (ratLeB_iff a c).mpr (le_trans ((ratLeB_iff a b).mp h1) ((ratLeB_iff b c).mp h2))

/-- Folded sum through `rAdd` (kernel-reducible). -/
def rSum (l : List Rat) : Rat := l.foldr rAdd 0

theorem rSum_eq (l : List Rat) : rSum l = l.sum := by
  induction l with
  | nil => rfl
  | cons a l ih => simp [rSum, List.foldr] at ih ⊢; rw [rAdd_eq, ih]

/-! ### Decimal parsing (the `errors="coerce"` casts) -/

def isDigitCh (c : Char) : Bool := '0' ≤ c && c ≤ '9'

def digitVal (c : Char) : Nat := c.toNat - 48

def digitsVal (cs : List Char) : Nat := cs.foldl (fun n c => n * 10 + digitVal c) 0

def stripOuterSpaces (cs : List Char) : List Char :=
  ((cs.dropWhile (fun c => c == ' ')).reverse.dropWhile (fun c => c == ' ')).reverse

/-- Decimal-string parser standing in for numeric parsing inside
`pd.to_numeric(..., errors="coerce")`: optional sign, digits, optional
fractional part, optional surrounding spaces; anything else is unparsable. -/
def parseNum (s : String) : Option Rat :=
  let cs := stripOuterSpaces s.toList
  let body := match cs with
    | '-' :: r => r
    | '+' :: r => r
    | r => r
  let neg : Bool := match cs with
    | '-' :: _ => true
    | _ => false
  let ip := body.takeWhile (fun c => c != '.')
  let rest := body.dropWhile (fun c => c != '.')
  let fp := match rest with
    | [] => ([] : List Char)
    | _ :: t => t
  let wellFormed : Bool :=
    ip.all isDigitCh && fp.all isDigitCh && !(ip.isEmpty && fp.isEmpty) &&
      (rest.length ≤ fp.length + 1)
  if wellFormed then
    let mag : Rat := mkRat (digitsVal ip * 10 ^ fp.length + digitsVal fp) (10 ^ fp.length)
    some (if neg then mkRat (-mag.num) mag.den else mag)
  else none

/-- Split a character list at dashes (for ISO dates). -/
def splitDashes : List Char → List (List Char)
  | [] => [[]]
  | c :: cs =>
      let rest := splitDashes cs
      if c == '-' then [] :: rest
      else match rest with
        | [] => [[c]]
        | g :: gs => (c :: g) :: gs

/-- ISO `YYYY-MM-DD` parser standing in for the pandas date parser inside
`pd.to_datetime(..., errors="coerce")`. -/
def parseDate (s : String) : Option (Nat × Nat × Nat) :=
  match splitDashes (stripOuterSpaces s.toList) with
  | [ys, ms, ds] =>
      if ys.all isDigitCh && ms.all isDigitCh && ds.all isDigitCh &&
          !ys.isEmpty && !ms.isEmpty && !ds.isEmpty then
        let m := digitsVal ms
        let d := digitsVal ds
        if 1 ≤ m && m ≤ 12 && 1 ≤ d && d ≤ 31 then some (digitsVal ys, m, d) else none
      else none
  | _ => none

/-- `pd.to_numeric(x, errors="coerce")` on one cell: numbers pass through,
strings are parsed, anything else (missing, dates) becomes missing. -/
def coerceNum : Cell → Option Rat
  | .num q => some q
  | .str s => parseNum s
  | _ => none

/-- `pd.to_datetime(x, errors="coerce")` on one cell: parsed dates pass
through, strings are parsed, anything unparsable becomes missing (NaT).
Numeric epoch interpretation is abstracted to missing; no claim involves a
numeric `t_date` column. -/
def coerceDate : Cell → Cell
  | .date y m d => .date y m d
  | .str s =>
      match parseDate s with
      | some (y, m, d) => .date y m d
      | none => .missing
  | _ => .missing

/-! ### Decimal rendering (for the derived `quarter` column) -/

def natDigitChar (n : Nat) : Char := Char.ofNat (48 + n)

def natStrAux : Nat → Nat → List Char
  | 0, _ => []
  | fuel + 1, n =>
      if n < 10 then [natDigitChar n] else natStrAux fuel (n / 10) ++ [natDigitChar (n % 10)]

def natStr (n : Nat) : String := ⟨natStrAux (n + 1) n⟩

def monthNames : List String :=
  ["January", "February", "March", "April", "May", "June", "July", "August",
   "September", "October", "November", "December"]

/-- `Series.dt.month_name()` on one cell: full month name, NaN for NaT. -/
def monthCell : Cell → Cell
  | .date _ m _ => .str (monthNames.getD (m - 1) "")
  | _ => .missing

/-- `Series.dt.to_period("Q").astype(str)` on one cell.  Note that
`astype(str)` renders a missing period as the literal string `"NaT"`. -/
def quarterCell : Cell → Cell
  | .date y m _ => .str (natStr y ++ "Q" ++ natStr ((m + 2) / 3))
  | _ => .str "NaT"

/-! ### The Dataset (DataFrame) model -/

/-- A DataFrame: ordered list of (column name, column values); rows align
positionally. -/
abbrev Dataset := List (String × List Cell)

def getCol : Dataset → String → Option (List Cell)
  | [], _ => none
  | (n, vs) :: rest, c => if n = c then some vs else getCol rest c

def getColD (df : Dataset) (c : String) : List Cell := (getCol df c).getD []

def hasCol (df : Dataset) (c : String) : Bool := df.any (fun p => p.1 == c)

def setCol : Dataset → String → List Cell → Dataset
  | [], _, _ => []
  | (n, vs) :: rest, c, ws => if n = c then (n, ws) :: rest else (n, vs) :: setCol rest c ws

def addCol (df : Dataset) (c : String) (vs : List Cell) : Dataset := df ++ [(c, vs)]

/-- mirrors `has_columns` (src/app.py:100-105): the columns reported as
missing by the validation message. -/
def missingCols (df : Dataset) (cols : List String) : List String :=
  cols.filter (fun c => !hasCol df c)

/-- `if c not in df.columns: df[c] = vs` — add a column only when absent
(src/app.py:94-97). -/
def addIfAbsent (df : Dataset) (c : String) (vs : List Cell) : Dataset :=
  if hasCol df c then df else addCol df c vs

/-- `ensure_datetime_and_derived_columns` (src/app.py:91-98): coerce `t_date`
to dates in place, then derive `month` and `quarter` only when absent. -/
def ensure_datetime_and_derived_columns (df : Dataset) : Dataset :=
  if hasCol df "t_date" then
    let td := (getColD df "t_date").map coerceDate
    addIfAbsent (addIfAbsent (setCol df "t_date" td) "month" (td.map monthCell))
      "quarter" (td.map quarterCell)
  else df

/-! ### Sorting (`sort_values`) -/

/-- Insertion step of the value sort. -/
def insertBy (le : α → α → Bool) (a : α) : List α → List α
  | [] => [a]
  | b :: l => if le a b then a :: b :: l else b :: insertBy le a l

/-- Insertion sort standing in for `sort_values`.  The spec explicitly
accepts an arbitrary tie-break, so only the pairwise order and the
multiset of entries are ever claimed. -/
def sortBy (le : α → α → Bool) : List α → List α
  | [] => []
  | a :: l => insertBy le a (sortBy le l)

theorem insertBy_perm (le : α → α → Bool) (a : α) (l : List α) :
    (insertBy le a l).Perm (a :: l) := by
  induction l with
  | nil => exact List.Perm.refl _
  | cons b l ih =>
      by_cases h : le a b = true
      · simp [insertBy, h]
      · simp only [insertBy, h, if_false]
        exact ((ih.cons b).trans (List.Perm.swap a b l))

theorem sortBy_perm (le : α → α → Bool) (l : List α) : (sortBy le l).Perm l := by
  induction l with
  | nil => exact List.Perm.refl _
  | cons a l ih => exact (insertBy_perm le a (sortBy le l)).trans (ih.cons a)

theorem mem_sortBy {le : α → α → Bool} {l : List α} {a : α} :
    a ∈ sortBy le l ↔ a ∈ l :=
  (sortBy_perm le l).mem_iff

theorem pairwise_insertBy {le : α → α → Bool}
    (htrans : ∀ a b c, le a b = true → le b c = true → le a c = true)
    (htot : ∀ a b, le a b = true ∨ le b a = true)
    {a : α} {l : List α} (h : l.Pairwise (fun x y => le x y = true)) :
    (insertBy le a l).Pairwise (fun x y => le x y = true) := by
  induction l with
  | nil => simp [insertBy]
  | cons b l ih =>
      rcases List.pairwise_cons.mp h with ⟨hb, hl⟩
      by_cases hab : le a b = true
      · simp only [insertBy, hab, if_true]
        refine List.pairwise_cons.mpr ⟨?_, h⟩
        intro x hx
        rcases List.mem_cons.mp hx with hx | hx
        · subst hx; exact hab
        · exact htrans a b x hab (hb x hx)
      · have hba : le b a = true := (htot a b).resolve_left hab
        simp only [insertBy, hab, if_false]
        refine List.pairwise_cons.mpr ⟨?_, ih hl⟩
        intro x hx
        rcases List.mem_cons.mp ((insertBy_perm le a l).mem_iff.mp hx) with hx | hx
        · subst hx; exact hba
        · exact hb x hx

theorem pairwise_sortBy (le : α → α → Bool)
    (htrans : ∀ a b c, le a b = true → le b c = true → le a c = true)
    (htot : ∀ a b, le a b = true ∨ le b a = true) (l : List α) :
    (sortBy le l).Pairwise (fun x y => le x y = true) := by
  induction l with
  | nil => simp [sortBy]
  | cons a l ih => exact pairwise_insertBy htrans htot ih

/-! ### Value orderings used by `sort_values` -/

/-- Lexicographic order on character lists (string comparison). -/
def chListLe : List Char → List Char → Bool
  | [], _ => true
  | _ :: _, [] => false
  | a :: as, b :: bs =>
      if a.toNat < b.toNat then true
      else if b.toNat < a.toNat then false
      else chListLe as bs

def strLeB (a b : String) : Bool := chListLe a.toList b.toList

theorem chListLe_total (as bs : List Char) : chListLe as bs = true ∨ chListLe bs as = true := by
  induction as generalizing bs with
  | nil => exact Or.inl rfl
  | cons a as ih =>
      cases bs with
      | nil => exact Or.inr rfl
      | cons b bs =>
          rcases Nat.lt_trichotomy a.toNat b.toNat with h | h | h
          · left; simp [chListLe, h]
          · rcases ih bs with h2 | h2
            · left; simp [chListLe, h, h2, Nat.lt_irrefl]
            · right; simp [chListLe, h.symm, h2, Nat.lt_irrefl]
          · right; simp [chListLe, h]

theorem chListLe_trans {as bs cs : List Char} (h1 : chListLe as bs = true)
    (h2 : chListLe bs cs = true) : chListLe as cs = true := by
  induction as generalizing bs cs with
  | nil => rfl
  | cons a as ih =>
      cases bs with
      | nil => simp [chListLe] at h1
      | cons b bs =>
          cases cs with
          | nil => simp [chListLe] at h2
          | cons c cs =>
              by_cases hab : a.toNat < b.toNat
              · by_cases hbc : b.toNat < c.toNat
                · simp [chListLe, Nat.lt_trans hab hbc]
                · by_cases hcb : c.toNat < b.toNat
                  · simp [chListLe, hbc, hcb] at h2
                  · have : b.toNat = c.toNat := Nat.le_antisymm (Nat.le_of_not_lt hcb) (Nat.le_of_not_lt hbc)
                    simp [chListLe, this ▸ hab]
              · by_cases hba : b.toNat < a.toNat
                · simp [chListLe, hab, hba] at h1
                · have heq : a.toNat = b.toNat := Nat.le_antisymm (Nat.le_of_not_lt hba) (Nat.le_of_not_lt hab)
                  simp only [chListLe, hab, hba, if_false] at h1
                  by_cases hbc : b.toNat < c.toNat
                  · simp [chListLe, heq ▸ hbc]
                  · by_cases hcb : c.toNat < b.toNat
                    · simp [chListLe, hbc, hcb] at h2
                    · simp only [chListLe, hbc, hcb, if_false] at h2
                      have h3 : ¬ a.toNat < c.toNat := heq ▸ hbc
                      have h4 : ¬ c.toNat < a.toNat := heq ▸ hcb
                      simp [chListLe, h3, h4, ih h1 h2]

theorem strLeB_total (a b : String) : strLeB a b = true ∨ strLeB b a = true :=
  chListLe_total a.toList b.toList

theorem strLeB_trans {a b c : String} (h1 : strLeB a b = true) (h2 : strLeB b c = true) :
    strLeB a c = true := chListLe_trans h1 h2

/-- Rank of a cell kind, used to make the value order total.  Inside any one
sorted aggregation result all values share one kind (all numbers, or all
concatenated strings), so the cross-kind order is never observable; pandas
would raise on a cross-kind comparison. -/
def cellRank : Cell → Nat
  | .missing => 0
  | .num _ => 1
  | .str _ => 2
  | .date _ _ _ => 3

/-- Total order on cells used when sorting aggregated values. -/
def cellLe (a b : Cell) : Bool :=
  if cellRank a < cellRank b then true
  else if cellRank b < cellRank a then false
  else match a, b with
    | .num x, .num y => ratLeB x y
    | .str x, .str y => strLeB x y
    | _, _ => true

theorem cellLe_total (a b : Cell) : cellLe a b = true ∨ cellLe b a = true := by
  rcases Nat.lt_trichotomy (cellRank a) (cellRank b) with h | h | h
  · left; simp [cellLe, h]
  · cases a <;> cases b <;> simp [cellRank] at h <;>
      simp only [cellLe, cellRank, Nat.lt_irrefl, if_false]
    · exact ratLeB_total _ _
    · exact strLeB_total _ _
    all_goals simp
  · right; simp [cellLe, h]

theorem cellLe_trans {a b c : Cell} (h1 : cellLe a b = true) (h2 : cellLe b c = true) :
    cellLe a c = true := by
  rcases Nat.lt_trichotomy (cellRank a) (cellRank b) with hab | hab | hab
  · rcases Nat.lt_trichotomy (cellRank b) (cellRank c) with hbc | hbc | hbc
    · simp [cellLe, Nat.lt_trans hab hbc]
    · simp [cellLe, hbc ▸ hab]
    · simp [cellLe, hbc, Nat.lt_asymm hbc] at h2
  · rcases Nat.lt_trichotomy (cellRank b) (cellRank c) with hbc | hbc | hbc
    · simp [cellLe, hab ▸ hbc]
    · have hac : cellRank a = cellRank c := hab.trans hbc
      simp only [cellLe, hab, hbc, hac, Nat.lt_irrefl, if_false] at h1 h2 ⊢
      cases a <;> cases b <;> simp [cellRank] at hab hbc <;> cases c <;>
        simp [cellRank] at hbc hac ⊢ <;> try rfl
      · exact ratLeB_trans h1 h2
      · exact strLeB_trans h1 h2
    · simp [cellLe, hbc, Nat.lt_asymm hbc] at h2
  · simp [cellLe, hab, Nat.lt_asymm hab] at h1

/-! ### Grouping (`groupby`, `value_counts`, `nunique`) -/

/-- Distinct elements in order of first occurrence. -/
def firstDistinct [DecidableEq α] : List α → List α
  | [] => []
  | a :: l => a :: (firstDistinct l).filter (fun x => decide (x ≠ a))

theorem mem_firstDistinct [DecidableEq α] {l : List α} {a : α} :
    a ∈ firstDistinct l ↔ a ∈ l := by
  induction l with
  | nil => simp [firstDistinct]
  | cons b l ih =>
      by_cases hab : a = b
      · subst hab; simp [firstDistinct]
      · simp [firstDistinct, hab, List.mem_filter, ih]

theorem nodup_firstDistinct [DecidableEq α] (l : List α) : (firstDistinct l).Nodup := by
  induction l with
  | nil => simp [firstDistinct]
  | cons b l ih =>
      refine List.nodup_cons.mpr ⟨?_, List.Nodup.filter _ ih⟩
      intro hmem
      have := (List.mem_filter.mp hmem).2
      simp at this

/-- Rows of a keyed column pair with a present (non-missing) key — what is
left after the `groupby` default `dropna=True`. -/
def includedPairs (keys vals : List Cell) : List (Cell × Cell) :=
  (keys.zip vals).filter (fun p => !p.1.isMissing)

/-- The groups of `df.groupby(keyCol)[valCol]`: each present key in order of
first occurrence with the value cells of its rows (row order preserved). -/
def groupRows (keys vals : List Cell) : List (Cell × List Cell) :=
  let inc := includedPairs keys vals
  (firstDistinct (inc.map (fun p => p.1))).map
    (fun k => (k, (inc.filter (fun p => decide (p.1 = k))).map (fun p => p.2)))

/-- Cells that are not missing (what `skipna=True` keeps). -/
def presentCells (cs : List Cell) : List Cell := cs.filter (fun c => !c.isMissing)

/-- Sum of the numeric cells of a list (missing skipped). -/
def sumPresent (cs : List Cell) : Rat := rSum (cs.filterMap numOf)

/-- Mean of the numeric cells of a list: NaN (`none`) when no numeric cell
is present, as pandas produces for an all-missing group. -/
def meanPresent (cs : List Cell) : Option Rat :=
  match cs.filterMap numOf with
  | [] => none
  | x :: xs => some (rDivNat (rSum (x :: xs)) (x :: xs).length)

/-- Concatenation of the string cells of a list (object-dtype `sum`). -/
def concatPresent (cs : List Cell) : String := (cs.filterMap strOf).foldr (fun a b => a ++ b) ""

/-- `series.sum()` on a raw (uncoerced) column: missing values are skipped;
an all-numeric column adds, an all-string column concatenates (object
dtype), and pandas raises a `TypeError` on a mixture. The sum of an empty
or all-missing column is 0. -/
def rawSeriesSum (cs : List Cell) : Res Cell :=
  let pres := presentCells cs
  if pres.all (fun c => c.isNum) then .ok (.num (sumPresent pres))
  else if pres.all (fun c => c.isStr) then .ok (.str (concatPresent pres))
  else .err

/-- `series.mean()` on a raw column: raises whenever a present string is
among the values; the mean of no present numbers is NaN. -/
def rawSeriesMean (cs : List Cell) : Res (Option Rat) :=
  if (presentCells cs).all (fun c => c.isNum) then .ok (meanPresent cs) else .err

/-- `df.groupby(k)[v].sum()`: per-group raw sums.  The numeric/string/raise
trichotomy is decided over all aggregated values: a group mixing kinds
raises inside the sum itself, and groups of different kinds raise later at
`sort_values`/`idxmax`; either way the branch ends in an exception, which is
what `err` records. -/
def groupAggSum (keys vals : List Cell) : Res (List (Cell × Cell)) :=
  let inc := includedPairs keys vals
  let pres := presentCells (inc.map (fun p => p.2))
  if pres.all (fun c => c.isNum) then
    .ok ((groupRows keys vals).map (fun g => (g.1, Cell.num (sumPresent g.2))))
  else if pres.all (fun c => c.isStr) then
    .ok ((groupRows keys vals).map (fun g => (g.1, Cell.str (concatPresent g.2))))
  else .err

/-- `df.groupby(k)[v].sum()` in a context that consumes the sums numerically
(quantiles): raises unless every aggregated value is numeric or missing. -/
def groupSumNum (keys vals : List Cell) : Res (List (Cell × Rat)) :=
  let inc := includedPairs keys vals
  if (presentCells (inc.map (fun p => p.2))).all (fun c => c.isNum) then
    .ok ((groupRows keys vals).map (fun g => (g.1, sumPresent g.2)))
  else .err

/-- `df.groupby(k)[v].mean()`: raises whenever a present string is among the
aggregated values; a group with no present number has mean NaN. -/
def groupMeanNum (keys vals : List Cell) : Res (List (Cell × Option Rat)) :=
  let inc := includedPairs keys vals
  if (presentCells (inc.map (fun p => p.2))).all (fun c => c.isNum) then
    .ok ((groupRows keys vals).map (fun g => (g.1, meanPresent g.2)))
  else .err

/-- `df.groupby(k).size()`: count of rows per present key. -/
def groupSizes (keys : List Cell) : List (Cell × Nat) :=
  let pres := presentCells keys
  (firstDistinct pres).map (fun k => (k, (pres.filter (fun c => decide (c = k))).length))

/-- Descending order on counts, for `value_counts` and count sorts. -/
def natGeB (a b : Nat) : Bool := decide (b ≤ a)

/-- `series.value_counts()`: counts per present value, sorted descending. -/
def valueCounts (cs : List Cell) : List (Cell × Nat) :=
  sortBy (fun a b => natGeB a.2 b.2) (groupSizes cs)

/-- `series.nunique()`: number of distinct present values (pandas default
`dropna=True` — a missing value is NOT counted). -/
def nuniqueList (cs : List Cell) : Nat := (firstDistinct (presentCells cs)).length

/-- Two-key grouping (`groupby([k1, k2]).size()`): rows where either key is
missing are dropped. -/
def groupSizes2 (k1 k2 : List Cell) : List ((Cell × Cell) × Nat) :=
  let inc := (k1.zip k2).filter (fun p => !p.1.isMissing && !p.2.isMissing)
  (firstDistinct inc).map (fun k => (k, (inc.filter (fun p => decide (p = k))).length))

/-- Positional three-column zip, for filters that keep whole rows. -/
def zip3 : List α → List β → List γ → List (α × β × γ)
  | a :: as, b :: bs, c :: cs => (a, b, c) :: zip3 as bs cs
  | _, _, _ => []

/-- Mean of a list of natural counts (`Series.mean()` on `groupby.size()`):
NaN when there are no groups. -/
def natListMean : List Nat → Option Rat
  | [] => none
  | n :: ns => some (rDivNat (mkRat (((n :: ns).foldr (· + ·) 0 : Nat) : Int) 1) (n :: ns).length)

/-- Linear-interpolation quantile at fraction `a / b` (the pandas default
`interpolation="linear"` of `Series.quantile`); NaN (`none`) on an empty
list.  With `h = (n - 1) * a / b`, the result interpolates between the
ranked values at positions `⌊h⌋` and `⌈h⌉`. -/
def quantileLin (a b : Nat) (xs : List Rat) : Option Rat :=
  match sortBy ratLeB xs with
  | [] => none
  | x :: rest =>
      let sorted := x :: rest
      let hnum := (sorted.length - 1) * a
      let lo := hnum / b
      let rem := hnum % b
      let xlo := sorted.getD lo x
      if rem == 0 then some xlo
      else
        let xhi := sorted.getD (lo + 1) xlo
        some (rAdd xlo (rMul (mkRat (rem : Int) b) (rSub xhi xlo)))

/-- Median = 0.5 quantile with pandas `skipna=True`: NaN entries are dropped
before ranking. -/
def medianSkipna (xs : List (Option Rat)) : Option Rat := quantileLin 1 2 (xs.filterMap id)

/-! ### Report branch computations (src/app.py:165-429)

Each function embeds the body of one `elif selected == ...` branch, after its
`has_columns` guard has passed.  A `Res.err` value records that the Python
code raises an exception at the corresponding point (`idxmax` on an empty
series, or aggregation over a mixed-type column). -/

/-- `sort_values(ascending=False)` on an aggregated series. -/
def sortValsDesc (l : List (Cell × Cell)) : List (Cell × Cell) :=
  sortBy (fun a b => cellLe b.2 a.2) l

/-- Descending order on means with NaN placed last, as `sort_values` does. -/
def optMeanDescLe (a b : Option Rat) : Bool :=
  match a, b with
  | some x, some y => ratLeB y x
  | some _, none => true
  | none, some _ => false
  | none, none => true

def sortMeansDesc (l : List (Cell × Option Rat)) : List (Cell × Option Rat) :=
  sortBy (fun a b => optMeanDescLe a.2 b.2) l

/-- Maximum of a rational list, `none` when empty (`max` with `skipna`). -/
def maxRatList : List Rat → Option Rat
  | [] => none
  | x :: xs => some (xs.foldr (fun q m => if ratLeB q m then m else q) x)

/-- src/app.py:169: `pd.to_numeric(df["t_amt"], errors="coerce").sum()`. -/
def total_sales (df : Dataset) : Rat :=
  rSum ((getColD df "t_amt").filterMap coerceNum)

/-- src/app.py:173-175: month totals sorted descending, then `idxmax`
(which raises on an empty series). -/
def month_with_highest_sales (df : Dataset) : Res (List (Cell × Cell) × Cell) :=
  match groupAggSum (getColD df "month") (getColD df "t_amt") with
  | .err => .err
  | .ok mt =>
      match sortValsDesc mt with
      | [] => .err
      | top :: rest => .ok (top :: rest, top.1)

/-- src/app.py:178: per-customer mean of the raw `t_amt`, sorted descending. -/
def average_transaction_amount_per_customer (df : Dataset) :
    Res (List (Cell × Option Rat)) :=
  match groupMeanNum (getColD df "cust_id") (getColD df "t_amt") with
  | .err => .err
  | .ok m => .ok (sortMeansDesc m)

/-- src/app.py:182: `pd.to_numeric(df["t_amt"], errors="coerce").max()`. -/
def highest_single_transaction (df : Dataset) : Option Rat :=
  maxRatList ((getColD df "t_amt").filterMap coerceNum)

/-- src/app.py:186-190: service totals sorted descending plus `idxmax`. -/
def revenue_by_service (df : Dataset) : Res (List (Cell × Cell) × Cell) :=
  match groupAggSum (getColD df "services") (getColD df "t_amt") with
  | .err => .err
  | .ok st =>
      match sortValsDesc st with
      | [] => .err
      | top :: rest => .ok (top :: rest, top.1)

/-- src/app.py:202-206: product totals sorted descending, the first 10
displayed, plus `idxmax`. -/
def revenue_by_product (df : Dataset) : Res (List (Cell × Cell) × Cell) :=
  match groupAggSum (getColD df "products_used") (getColD df "t_amt") with
  | .err => .err
  | .ok pt =>
      match sortValsDesc pt with
      | [] => .err
      | top :: rest => .ok ((top :: rest).take 10, top.1)

/-- src/app.py:218: per-service mean sorted descending. -/
def average_amount_per_service (df : Dataset) : Res (List (Cell × Option Rat)) :=
  match groupMeanNum (getColD df "services") (getColD df "t_amt") with
  | .err => .err
  | .ok m => .ok (sortMeansDesc m)

/-- src/app.py:233: `df["cust_id"].nunique()` (pandas default drops NaN). -/
def unique_customers (df : Dataset) : Nat := nuniqueList (getColD df "cust_id")

/-- src/app.py:237-238: per-customer totals sorted descending, truncated to
10 (`head(10)`), of which the first 5 are displayed (`head()`). -/
def top_customers_by_spend (df : Dataset) : Res (List (Cell × Cell)) :=
  match groupAggSum (getColD df "cust_id") (getColD df "t_amt") with
  | .err => .err
  | .ok ct =>
      let cust_total := (sortValsDesc ct).take 10
      .ok (cust_total.take 5)

/-- src/app.py:241-242: mean of the per-customer row counts. -/
def average_transactions_per_customer (df : Dataset) : Option Rat :=
  natListMean ((groupSizes (getColD df "cust_id")).map (fun p => p.2))

/-- src/app.py:245-247: per-customer distinct-service counts, kept when
greater than 1. -/
def customers_purchasing_multiple_services (df : Dataset) : List (Cell × Nat) :=
  ((groupRows (getColD df "cust_id") (getColD df "services")).map
    (fun g => (g.1, nuniqueList g.2))).filter (fun p => decide (1 < p.2))

/-- src/app.py:250-253: share of distinct customers with more than one row,
as a percentage; 0 when there are no customers. -/
def percentage_of_repeat_buyers (df : Dataset) : Rat :=
  let cust_count := valueCounts (getColD df "cust_id")
  let repeatN := (cust_count.filter (fun p => decide (1 < p.2))).length
  let total := cust_count.length
  if 0 < total then rDivNat (mkRat ((repeatN * 100 : Nat) : Int) 1) total else 0

/-- src/app.py:257-261: `value_counts` (sorted descending) plus `idxmax`. -/
def popular_services_by_count (df : Dataset) : Res (List (Cell × Nat) × Cell) :=
  match valueCounts (getColD df "services") with
  | [] => .err
  | top :: rest => .ok (top :: rest, top.1)

/-- First index attaining the maximal count (`idxmax` semantics). -/
def firstArgmax : List ((Cell × Cell) × Nat) → Option (Cell × Cell)
  | [] => none
  | e :: rest => some ((rest.foldl (fun best x => if best.2 < x.2 then x else best) e).1)

/-- src/app.py:273-274: pair counts by (service, product), then the arg-max
product index per service. -/
def most_purchased_product_per_service (df : Dataset) :
    List (Cell × Option (Cell × Cell)) :=
  let prod_count := groupSizes2 (getColD df "services") (getColD df "products_used")
  (firstDistinct (prod_count.map (fun e => e.1.1))).map
    (fun s => (s, firstArgmax (prod_count.filter (fun e => decide (e.1.1 = s)))))

/-- src/app.py:278: per-product mean sorted descending. -/
def average_amount_per_product (df : Dataset) : Res (List (Cell × Option Rat)) :=
  match groupMeanNum (getColD df "products_used") (getColD df "t_amt") with
  | .err => .err
  | .ok m => .ok (sortMeansDesc m)

/-- src/app.py:282-286: state totals sorted descending, first 10 displayed,
plus `idxmax`. -/
def state_with_highest_total_sales (df : Dataset) : Res (List (Cell × Cell) × Cell) :=
  match groupAggSum (getColD df "state") (getColD df "t_amt") with
  | .err => .err
  | .ok st =>
      match sortValsDesc st with
      | [] => .err
      | top :: rest => .ok ((top :: rest).take 10, top.1)

/-- src/app.py:298-302: city `value_counts` sorted descending, first 10
displayed, plus `idxmax`. -/
def city_with_highest_number_of_transactions (df : Dataset) :
    Res (List (Cell × Nat) × Cell) :=
  match valueCounts (getColD df "city") with
  | [] => .err
  | top :: rest => .ok ((top :: rest).take 10, top.1)

/-- src/app.py:314: per-state mean sorted descending. -/
def average_spending_per_state (df : Dataset) : Res (List (Cell × Option Rat)) :=
  match groupMeanNum (getColD df "state") (getColD df "t_amt") with
  | .err => .err
  | .ok m => .ok (sortMeansDesc m)

/-- src/app.py:318: `groupby(["state","services"]).size().unstack(fill_value=0)`:
a state-by-service count table, zero-filled for absent combinations; rows
with either key missing are dropped by `groupby`. -/
def services_popularity_by_state (df : Dataset) :
    List (Cell × List (Cell × Nat)) × List Cell :=
  let inc := ((getColD df "state").zip (getColD df "services")).filter
    (fun p => !p.1.isMissing && !p.2.isMissing)
  let rows := firstDistinct (inc.map (fun p => p.1))
  let cols := firstDistinct (inc.map (fun p => p.2))
  (rows.map (fun r =>
      (r, cols.map (fun c => (c, (inc.filter (fun p => decide (p = (r, c)))).length)))),
    cols)

/-- src/app.py:322-323: rows filtered to `services == "Outdoor Recreation"`,
then state totals sorted descending (no `idxmax` in this branch). -/
def outdoor_recreation_revenue_by_state (df : Dataset) : Res (List (Cell × Cell)) :=
  let rows := zip3 (getColD df "services") (getColD df "state") (getColD df "t_amt")
  let outdoor := rows.filter (fun r => cellEqB r.1 (.str "Outdoor Recreation"))
  match groupAggSum (outdoor.map (fun r => r.2.1)) (outdoor.map (fun r => r.2.2)) with
  | .err => .err
  | .ok l => .ok (sortValsDesc l)

/-- src/app.py:327-328: mean `t_amt` over the California rows and over the
Texas rows. -/
def compare_average_spending_ca_tx (df : Dataset) : Res (Option Rat × Option Rat) :=
  let rows := (getColD df "state").zip (getColD df "t_amt")
  let ca := (rows.filter (fun p => cellEqB p.1 (.str "California"))).map (fun p => p.2)
  let tx := (rows.filter (fun p => cellEqB p.1 (.str "Texas"))).map (fun p => p.2)
  match rawSeriesMean ca, rawSeriesMean tx with
  | .ok a, .ok b => .ok (a, b)
  | _, _ => .err

/-- src/app.py:334-338: quarter totals sorted descending plus `idxmax`. -/
def quarter_with_highest_sales (df : Dataset) : Res (List (Cell × Cell) × Cell) :=
  match groupAggSum (getColD df "quarter") (getColD df "t_amt") with
  | .err => .err
  | .ok qt =>
      match sortValsDesc qt with
      | [] => .err
      | top :: rest => .ok (top :: rest, top.1)

/-- src/app.py:350: month totals in group order (no value sort). -/
def total_sales_by_month (df : Dataset) : Res (List (Cell × Cell)) :=
  groupAggSum (getColD df "month") (getColD df "t_amt")

/-- src/app.py:365-366: rows filtered to `services == "Team Sports"`, then
month totals in group order. -/
def team_sports_sales_by_month (df : Dataset) : Res (List (Cell × Cell)) :=
  let rows := zip3 (getColD df "services") (getColD df "month") (getColD df "t_amt")
  let sports := rows.filter (fun r => cellEqB r.1 (.str "Team Sports"))
  groupAggSum (sports.map (fun r => r.2.1)) (sports.map (fun r => r.2.2))

def lowerChar (c : Char) : Char :=
  if 'A' ≤ c && c ≤ 'Z' then Char.ofNat (c.toNat + 32) else c

def lowerStr (s : String) : String := ⟨s.toList.map lowerChar⟩

/-- `astype(str).str.lower()` on one cell.  A missing value renders as the
string `"nan"`.  The decimal rendering of numbers and dates is abbreviated
(it is only ever compared against `"credit"`/`"cash"`, which no numeric or
date rendering equals). -/
def strLowerCell : Cell → Cell
  | .str s => .str (lowerStr s)
  | .missing => .str "nan"
  | .num q =>
      .str ((if q.num < 0 then "-" else "") ++ natStr q.num.natAbs ++
        (if q.den == 1 then ".0" else ""))
  | .date y m d => .str (natStr y ++ "-" ++ natStr m ++ "-" ++ natStr d)

/-- src/app.py:381-392: lower-cased payment method; credit/cash row counts,
raw credit revenue sum, raw means, and the per-method mean table.  Fields:
(credit count, credit revenue, credit mean, cash count, cash mean,
mean by payment method). -/
def credit_vs_debit (df : Dataset) :
    Res (Nat × Cell × Option Rat × Nat × Option Rat × List (Cell × Option Rat)) :=
  let lower := (getColD df "t_details").map strLowerCell
  let rows := lower.zip (getColD df "t_amt")
  let credit := (rows.filter (fun p => cellEqB p.1 (.str "credit"))).map (fun p => p.2)
  let cash := (rows.filter (fun p => cellEqB p.1 (.str "cash"))).map (fun p => p.2)
  match rawSeriesSum credit, rawSeriesMean credit, rawSeriesMean cash,
      groupMeanNum lower (getColD df "t_amt") with
  | .ok cs, .ok cm, .ok km, .ok byPay =>
      .ok (credit.length, cs, cm, cash.length, km, byPay)
  | _, _, _, _ => .err

/-- src/app.py:396-397: per-city mean sorted descending, first 10 displayed. -/
def cities_by_average_transaction (df : Dataset) : Res (List (Cell × Option Rat)) :=
  match groupMeanNum (getColD df "city") (getColD df "t_amt") with
  | .err => .err
  | .ok m => .ok ((sortMeansDesc m).take 10)

/-- src/app.py:400-404: rows filtered to `services == "Exercise & Fitness"`,
then product totals sorted descending, first 10 displayed. -/
def exercise_fitness_top_products (df : Dataset) : Res (List (Cell × Cell)) :=
  let rows := zip3 (getColD df "services") (getColD df "products_used") (getColD df "t_amt")
  let fitness := rows.filter (fun r => cellEqB r.1 (.str "Exercise & Fitness"))
  match groupAggSum (fitness.map (fun r => r.2.1)) (fitness.map (fun r => r.2.2)) with
  | .err => .err
  | .ok l => .ok ((sortValsDesc l).take 10)

/-- The `prod_df`/`svc_df` table of src/app.py:416-418 and 424-426: per-key
raw total and raw mean, aligned by group key. -/
def keyTotalsAndMeans (keys vals : List Cell) : List (Cell × Rat × Option Rat) :=
  (groupRows keys vals).map (fun g => (g.1, sumPresent g.2, meanPresent g.2))

/-- Comparison of a total against an optional quantile threshold: any
comparison against NaN is false in pandas. -/
def qGeB (t : Rat) (thr : Option Rat) : Bool :=
  match thr with
  | some q => ratLeB q t
  | none => false

def qLeB (t : Rat) (thr : Option Rat) : Bool :=
  match thr with
  | some q => ratLeB t q
  | none => false

/-- Comparison of an optional mean against an optional median: false
whenever either side is NaN. -/
def optLeB (a m : Option Rat) : Bool :=
  match a, m with
  | some x, some y => ratLeB x y
  | _, _ => false

/-- src/app.py:416-421: products whose total is at least the 0.75 quantile
of per-product totals AND whose mean is at most the median of per-product
means, sorted descending by total.  Raises on a non-numeric aggregated
value (the raw mean of line 417 raises on any present string). -/
def high_total_low_avg_products (df : Dataset) : Res (List (Cell × Rat × Option Rat)) :=
  let keys := getColD df "products_used"
  let vals := getColD df "t_amt"
  if (presentCells ((includedPairs keys vals).map (fun p => p.2))).all (fun c => c.isNum) then
    let prod_df := keyTotalsAndMeans keys vals
    let threshold := quantileLin 3 4 (prod_df.map (fun e => e.2.1))
    let medAvg := medianSkipna (prod_df.map (fun e => e.2.2))
    let candidates := prod_df.filter (fun e => qGeB e.2.1 threshold && optLeB e.2.2 medAvg)
    .ok (sortBy (fun a b => ratLeB b.2.1 a.2.1) candidates)
  else .err

/-- src/app.py:424-429: services whose total is at most the 0.25 quantile
of per-service totals AND whose mean is at most the median of per-service
means, sorted ascending by total. -/
def underperforming_services (df : Dataset) : Res (List (Cell × Rat × Option Rat)) :=
  let keys := getColD df "services"
  let vals := getColD df "t_amt"
  if (presentCells ((includedPairs keys vals).map (fun p => p.2))).all (fun c => c.isNum) then
    let svc_df := keyTotalsAndMeans keys vals
    let low_threshold := quantileLin 1 4 (svc_df.map (fun e => e.2.1))
    let medAvg := medianSkipna (svc_df.map (fun e => e.2.2))
    let underperform := svc_df.filter (fun e => qLeB e.2.1 low_threshold && optLeB e.2.2 medAvg)
    .ok (sortBy (fun a b => ratLeB a.2.1 b.2.1) underperform)
  else .err

/-! ### Report dispatch (src/app.py:131-429) -/

/-- The value a report branch renders: a scalar metric, a pair of scalars,
an ordered key-to-aggregate series (possibly with an `idxmax` banner), a
pivot table, or the payment-method statistics block. -/
inductive ReportResult where
  | amount (r : Rat)
  | amountOpt (r : Option Rat)
  | count (n : Nat)
  | pct (r : Rat)
  | meanScalar (r : Option Rat)
  | meanPair (ca tx : Option Rat)
  | series (l : List (Cell × Cell))
  | seriesTop (l : List (Cell × Cell)) (top : Cell)
  | meanSeries (l : List (Cell × Option Rat))
  | natSeries (l : List (Cell × Nat))
  | natSeriesTop (l : List (Cell × Nat)) (top : Cell)
  | argmaxSeries (l : List (Cell × Option (Cell × Cell)))
  | pivotCounts (t : List (Cell × List (Cell × Nat))) (cols : List Cell)
  | payStats (creditCount : Nat) (creditRevenue : Cell) (creditMean : Option Rat)
      (cashCount : Nat) (cashMean : Option Rat) (byPay : List (Cell × Option Rat))
  | scoredSeries (l : List (Cell × Rat × Option Rat))
deriving DecidableEq

/-- Outcome of selecting a report: the sentinel/unknown names compute
nothing; a report with absent required columns is skipped with the
validation message naming them; otherwise the branch body runs and either
raises (`failed`) or renders a result. -/
inductive Outcome where
  | noReport
  | skipped (missing : List String)
  | failed
  | ran (r : ReportResult)
deriving DecidableEq

/-- Required columns of each report — the argument of the `has_columns`
guard opening each branch (src/app.py:168-423); `none` for the
"Select Report" sentinel and unknown names. -/
def requiredCols : String → Option (List String)
  | "Total Sales" => some ["t_amt"]
  | "Month With Highest Sales" => some ["t_amt", "month"]
  | "Average Transaction Amount Per Customer" => some ["cust_id", "t_amt"]
  | "Highest Single Transaction" => some ["t_amt"]
  | "Revenue By Service" => some ["services", "t_amt"]
  | "Revenue By Product" => some ["products_used", "t_amt"]
  | "Average Amount Per Service" => some ["services", "t_amt"]
  | "Unique Customers" => some ["cust_id"]
  | "Top Customers By Spend" => some ["cust_id", "t_amt"]
  | "Average Transactions Per Customer" => some ["cust_id"]
  | "Customers Purchasing Multiple Services" => some ["cust_id", "services"]
  | "Percentage Of Repeat Buyers" => some ["cust_id"]
  | "Popular Services By Count" => some ["services"]
  | "Most Purchased Product Per Service" => some ["services", "products_used"]
  | "Average Amount Per Product" => some ["products_used", "t_amt"]
  | "State With Highest Total Sales" => some ["state", "t_amt"]
  | "City With Highest Number Of Transactions" => some ["city"]
  | "Average Spending Per State" => some ["state", "t_amt"]
  | "Services Popularity By State (Counts)" => some ["state", "services"]
  | "Outdoor Recreation Revenue By State" => some ["services", "state", "t_amt"]
  | "Compare Average Spending: California vs Texas" => some ["state", "t_amt"]
  | "Quarter With Highest Sales" => some ["quarter", "t_amt"]
  | "Total Sales By Month" => some ["month", "t_amt"]
  | "Team Sports Sales By Month" => some ["services", "month", "t_amt"]
  | "Credit vs Debit: Counts, Revenue, Averages" => some ["t_details", "t_amt"]
  | "Cities By Average Transaction" => some ["city", "t_amt"]
  | "Exercise & Fitness: Top Products" => some ["services", "products_used", "t_amt"]
  | "High Total, Low Avg Products" => some ["products_used", "t_amt"]
  | "Underperforming Services" => some ["services", "t_amt"]
  | _ => none

/-- The branch body of each report, run after its column guard passed. -/
def runReport (df : Dataset) (name : String) : Outcome :=
  match name with
  | "Total Sales" => .ran (.amount (total_sales df))
  | "Month With Highest Sales" =>
      match month_with_highest_sales df with
      | .ok (l, t) => .ran (.seriesTop l t)
      | .err => .failed
  | "Average Transaction Amount Per Customer" =>
      match average_transaction_amount_per_customer df with
      | .ok l => .ran (.meanSeries l)
      | .err => .failed
  | "Highest Single Transaction" => .ran (.amountOpt (highest_single_transaction df))
  | "Revenue By Service" =>
      match revenue_by_service df with
      | .ok (l, t) => .ran (.seriesTop l t)
      | .err => .failed
  | "Revenue By Product" =>
      match revenue_by_product df with
      | .ok (l, t) => .ran (.seriesTop l t)
      | .err => .failed
  | "Average Amount Per Service" =>
      match average_amount_per_service df with
      | .ok l => .ran (.meanSeries l)
      | .err => .failed
  | "Unique Customers" => .ran (.count (unique_customers df))
  | "Top Customers By Spend" =>
      match top_customers_by_spend df with
      | .ok l => .ran (.series l)
      | .err => .failed
  | "Average Transactions Per Customer" =>
      .ran (.meanScalar (average_transactions_per_customer df))
  | "Customers Purchasing Multiple Services" =>
      .ran (.natSeries (customers_purchasing_multiple_services df))
  | "Percentage Of Repeat Buyers" => .ran (.pct (percentage_of_repeat_buyers df))
  | "Popular Services By Count" =>
      match popular_services_by_count df with
      | .ok (l, t) => .ran (.natSeriesTop l t)
      | .err => .failed
  | "Most Purchased Product Per Service" =>
      .ran (.argmaxSeries (most_purchased_product_per_service df))
  | "Average Amount Per Product" =>
      match average_amount_per_product df with
      | .ok l => .ran (.meanSeries l)
      | .err => .failed
  | "State With Highest Total Sales" =>
      match state_with_highest_total_sales df with
      | .ok (l, t) => .ran (.seriesTop l t)
      | .err => .failed
  | "City With Highest Number Of Transactions" =>
      match city_with_highest_number_of_transactions df with
      | .ok (l, t) => .ran (.natSeriesTop l t)
      | .err => .failed
  | "Average Spending Per State" =>
      match average_spending_per_state df with
      | .ok l => .ran (.meanSeries l)
      | .err => .failed
  | "Services Popularity By State (Counts)" =>
      .ran (.pivotCounts (services_popularity_by_state df).1 (services_popularity_by_state df).2)
  | "Outdoor Recreation Revenue By State" =>
      match outdoor_recreation_revenue_by_state df with
      | .ok l => .ran (.series l)
      | .err => .failed
  | "Compare Average Spending: California vs Texas" =>
      match compare_average_spending_ca_tx df with
      | .ok (a, b) => .ran (.meanPair a b)
      | .err => .failed
  | "Quarter With Highest Sales" =>
      match quarter_with_highest_sales df with
      | .ok (l, t) => .ran (.seriesTop l t)
      | .err => .failed
  | "Total Sales By Month" =>
      match total_sales_by_month df with
      | .ok l => .ran (.series l)
      | .err => .failed
  | "Team Sports Sales By Month" =>
      match team_sports_sales_by_month df with
      | .ok l => .ran (.series l)
      | .err => .failed
  | "Credit vs Debit: Counts, Revenue, Averages" =>
      match credit_vs_debit df with
      | .ok (cc, cs, cm, kc, km, byPay) => .ran (.payStats cc cs cm kc km byPay)
      | .err => .failed
  | "Cities By Average Transaction" =>
      match cities_by_average_transaction df with
      | .ok l => .ran (.meanSeries l)
      | .err => .failed
  | "Exercise & Fitness: Top Products" =>
      match exercise_fitness_top_products df with
      | .ok l => .ran (.series l)
      | .err => .failed
  | "High Total, Low Avg Products" =>
      match high_total_low_avg_products df with
      | .ok l => .ran (.scoredSeries l)
      | .err => .failed
  | "Underperforming Services" =>
      match underperforming_services df with
      | .ok l => .ran (.scoredSeries l)
      | .err => .failed
  | _ => .noReport

/-- The report selection flow (src/app.py:163-429): each branch first runs
`has_columns` on its required columns and computes nothing when any is
absent — `st.error` then shows the missing names, which `skipped` carries. -/
def compute (df : Dataset) (name : String) : Outcome :=
  match requiredCols name with
  | none => .noReport
  | some req =>
      let missing := missingCols df req
      if missing.isEmpty then runReport df name else .skipped missing

/-! ### General lemmas about the embedding -/

theorem compute_run (df : Dataset) (name : String) (req : List String)
    (hreq : requiredCols name = some req) (hcols : missingCols df req = []) :
    compute df name = runReport df name := by
  simp [compute, hreq, hcols]

theorem missingCols_single_of_hasCol {df : Dataset} {c : String}
    (h : hasCol df c = true) : missingCols df [c] = [] := by
  simp [missingCols, h]

theorem sum_filterMap_getD (f : Cell → Option Rat) (l : List Cell) :
    (l.filterMap f).sum = (l.map (fun c => (f c).getD 0)).sum := by
  induction l with
  | nil => rfl
  | cons c l ih => cases hfc : f c <;> simp [List.filterMap_cons, hfc, ih]

theorem length_firstDistinct_eq_card [DecidableEq α] (l : List α) :
    (firstDistinct l).length = l.toFinset.card := by
  rw [← List.toFinset_card_of_nodup (nodup_firstDistinct l)]
  congr 1
  ext a
  simp [List.mem_toFinset, mem_firstDistinct]

theorem zip3_fst_mem {α β γ : Type} {as : List α} {bs : List β} {cs : List γ}
    {r : α × β × γ} (h : r ∈ zip3 as bs cs) : r.1 ∈ as := by
  induction as generalizing bs cs with
  | nil => simp [zip3] at h
  | cons a as ih =>
      cases bs with
      | nil => simp [zip3] at h
      | cons b bs =>
          cases cs with
          | nil => simp [zip3] at h
          | cons c cs =>
              rcases List.mem_cons.mp h with hr | hr
              · subst hr; exact List.mem_cons_self _ _
              · exact List.mem_cons_of_mem _ (ih hr)

theorem cellEqB_eq_true {a b : Cell} (h : cellEqB a b = true) : a = b := by
  cases a <;> cases b <;> simp_all [cellEqB]

/-! ### Claim C1 — Total Sales -/

/-- Claim C1: on a dataset with a `t_amt` column the Total Sales report
computes without error, and its value is the sum of `t_amt` over exactly the
rows whose value parses as numeric — each unparsable or missing value is
excluded, i.e. contributes nothing. -/
theorem totalSales_sums_parsed_rows (df : Dataset) (h : hasCol df "t_amt" = true) :
    compute df "Total Sales" =
      .ran (.amount (((getColD df "t_amt").filterMap coerceNum).sum)) ∧
    ((getColD df "t_amt").filterMap coerceNum).sum =
      ((getColD df "t_amt").map (fun c => (coerceNum c).getD 0)).sum := by
  constructor
  · rw [compute_run df "Total Sales" ["t_amt"] rfl (missingCols_single_of_hasCol h)]
    show Outcome.ran (.amount (total_sales df)) = _
    rw [total_sales, rSum_eq]
  · exact sum_filterMap_getD coerceNum (getColD df "t_amt")

def sampleAmounts : Dataset := [("t_amt", [.num 10, .str "abc", .str "2.5", .missing])]

/-- Witness for C1 at a dataset holding a number, an unparsable string, a
numeric string and a missing value. -/
theorem totalSales_sums_parsed_rows_witness :
    compute sampleAmounts "Total Sales" =
      .ran (.amount (((getColD sampleAmounts "t_amt").filterMap coerceNum).sum)) :=
  (totalSales_sums_parsed_rows sampleAmounts (by decide)).1

/-! ### Claim C2 — missing required columns skip the report -/

/-- Claim C2: for every report, when a required column is absent the
computation is skipped — the outcome is the validation failure carrying
exactly the report's absent required columns (never a crash, never a
result). -/
theorem missing_columns_skip_report (name : String) (df : Dataset) (req : List String)
    (hreq : requiredCols name = some req) (c : String) (hc : c ∈ req)
    (habs : hasCol df c = false) :
    compute df name = .skipped (missingCols df req) ∧
    missingCols df req ≠ [] ∧
    (∀ m ∈ missingCols df req, m ∈ req ∧ hasCol df m = false) := by
  have hmem : c ∈ missingCols df req := by
    simp [missingCols, List.mem_filter, hc, habs]
  have hne : missingCols df req ≠ [] := List.ne_nil_of_mem hmem
  refine ⟨?_, hne, ?_⟩
  · have hemp : (missingCols df req).isEmpty = false := by
      cases hml : missingCols df req with
      | nil => exact absurd hml hne
      | cons a l => simp
    simp [compute, hreq, hemp]
  · intro m hm
    rcases List.mem_filter.mp hm with ⟨h1, h2⟩
    exact ⟨h1, by simpa using h2⟩

/-- Witness for C2: the Month With Highest Sales report on a dataset having
only `t_amt` is skipped with the message naming `month`. -/
theorem missing_columns_skip_report_witness :
    compute [("t_amt", [Cell.num 3])] "Month With Highest Sales" =
      .skipped (missingCols [("t_amt", [Cell.num 3])] ["t_amt", "month"]) :=
  (missing_columns_skip_report "Month With Highest Sales" [("t_amt", [Cell.num 3])]
    ["t_amt", "month"] rfl "month" (by decide) (by decide)).1

/-! ### Claim C4 — Unique Customers and missing identifiers -/

/-- Modelled from the spec: the count of distinct `cust_id` values in which
a missing identifier, when present in the data, contributes exactly one. -/
def nuniqueCountingMissing (cs : List Cell) : Nat := (firstDistinct cs).length

def missingIdDf : Dataset := [("cust_id", [Cell.missing, Cell.str "A"])]

/-- Counterexample to C4: on a `cust_id` column holding a missing identifier
and "A" the code returns 1 — pandas `nunique()` drops NaN by default — while
the claim demands the missing identifier add one, i.e. 2. -/
theorem uniqueCustomers_drops_missing :
    compute missingIdDf "Unique Customers" = .ran (.count 1) ∧
    nuniqueCountingMissing (getColD missingIdDf "cust_id") = 2 := by decide

/-- Claim C4 as amended: Unique Customers returns the number of distinct
present `cust_id` values; rows with a missing identifier contribute
nothing to the count. -/
theorem uniqueCustomers_counts_distinct_present (df : Dataset)
    (h : hasCol df "cust_id" = true) :
    compute df "Unique Customers" =
      .ran (.count ((getColD df "cust_id").filter (fun c => !c.isMissing)).toFinset.card) := by
  rw [compute_run df "Unique Customers" ["cust_id"] rfl (missingCols_single_of_hasCol h)]
  show Outcome.ran (.count (unique_customers df)) = _
  rw [unique_customers, nuniqueList, presentCells, length_firstDistinct_eq_card]

/-- Witness for the amended C4 at the counterexample dataset. -/
theorem uniqueCustomers_counts_distinct_present_witness :
    compute missingIdDf "Unique Customers" =
      .ran (.count ((getColD missingIdDf "cust_id").filter
        (fun c => !c.isMissing)).toFinset.card) :=
  uniqueCustomers_counts_distinct_present missingIdDf (by decide)

/-! ### Claim C9 — empty data degrades to zero/empty results -/

theorem no_match_filter_nil (df : Dataset) (tag : String) (col2 col3 : String)
    (hnone : ∀ c ∈ getColD df "services", c ≠ Cell.str tag) :
    (zip3 (getColD df "services") (getColD df col2) (getColD df col3)).filter
      (fun r => cellEqB r.1 (.str tag)) = [] := by
  rw [List.filter_eq_nil_iff]
  intro r hr hEq
  exact hnone r.1 (zip3_fst_mem hr) (cellEqB_eq_true hEq)

/-- Claim C9: zero-row data and zero-match filters degrade to zero/empty
results without raising — Total Sales over zero rows is the amount 0,
Unique Customers over zero rows is 0, and the filtered reports (Outdoor
Recreation Revenue By State, Team Sports Sales By Month, Exercise & Fitness
Top Products) return an empty group-to-aggregate mapping on a dataset with
no row matching their filter. -/
theorem empty_data_zero_results (df : Dataset) :
    (hasCol df "t_amt" = true → getColD df "t_amt" = [] →
      compute df "Total Sales" = .ran (.amount 0)) ∧
    (hasCol df "cust_id" = true → getColD df "cust_id" = [] →
      compute df "Unique Customers" = .ran (.count 0)) ∧
    (hasCol df "services" = true → hasCol df "state" = true → hasCol df "t_amt" = true →
      (∀ c ∈ getColD df "services", c ≠ Cell.str "Outdoor Recreation") →
      compute df "Outdoor Recreation Revenue By State" = .ran (.series [])) ∧
    (hasCol df "services" = true → hasCol df "month" = true → hasCol df "t_amt" = true →
      (∀ c ∈ getColD df "services", c ≠ Cell.str "Team Sports") →
      compute df "Team Sports Sales By Month" = .ran (.series [])) ∧
    (hasCol df "services" = true → hasCol df "products_used" = true →
      hasCol df "t_amt" = true →
      (∀ c ∈ getColD df "services", c ≠ Cell.str "Exercise & Fitness") →
      compute df "Exercise & Fitness: Top Products" = .ran (.series [])) := by
  refine ⟨?_, ?_, ?_, ?_, ?_⟩
  · intro h hempty
    rw [compute_run df "Total Sales" ["t_amt"] rfl (missingCols_single_of_hasCol h)]
    show Outcome.ran (.amount (total_sales df)) = _
    rw [total_sales, hempty]
    rfl
  · intro h hempty
    rw [compute_run df "Unique Customers" ["cust_id"] rfl (missingCols_single_of_hasCol h)]
    show Outcome.ran (.count (unique_customers df)) = _
    rw [unique_customers, hempty]
    rfl
  · intro hsvc hst hamt hnone
    have hcols : missingCols df ["services", "state", "t_amt"] = [] := by
      simp [missingCols, hsvc, hst, hamt]
    rw [compute_run df "Outdoor Recreation Revenue By State"
      ["services", "state", "t_amt"] rfl hcols]
    show (match outdoor_recreation_revenue_by_state df with
      | .ok l => Outcome.ran (.series l)
      | .err => .failed) = _
    rw [outdoor_recreation_revenue_by_state]
    simp only [no_match_filter_nil df "Outdoor Recreation" "state" "t_amt" hnone]
    rfl
  · intro hsvc hmo hamt hnone
    have hcols : missingCols df ["services", "month", "t_amt"] = [] := by
      simp [missingCols, hsvc, hmo, hamt]
    rw [compute_run df "Team Sports Sales By Month"
      ["services", "month", "t_amt"] rfl hcols]
    show (match team_sports_sales_by_month df with
      | .ok l => Outcome.ran (.series l)
      | .err => .failed) = _
    rw [team_sports_sales_by_month]
    simp only [no_match_filter_nil df "Team Sports" "month" "t_amt" hnone]
    rfl
  · intro hsvc hpr hamt hnone
    have hcols : missingCols df ["services", "products_used", "t_amt"] = [] := by
      simp [missingCols, hsvc, hpr, hamt]
    rw [compute_run df "Exercise & Fitness: Top Products"
      ["services", "products_used", "t_amt"] rfl hcols]
    show (match exercise_fitness_top_products df with
      | .ok l => Outcome.ran (.series l)
      | .err => .failed) = _
    rw [exercise_fitness_top_products]
    simp only [no_match_filter_nil df "Exercise & Fitness" "products_used" "t_amt" hnone]
    rfl

def noOutdoorDf : Dataset :=
  [("t_amt", [Cell.num 5]), ("services", [Cell.str "Ski"]), ("state", [Cell.str "Utah"])]

def zeroRowsDf : Dataset := [("t_amt", [])]

/-- Witness for C9: zero rows give Total Sales 0; a dataset with no
"Outdoor Recreation" row gives the empty mapping. -/
theorem empty_data_zero_results_witness :
    compute zeroRowsDf "Total Sales" = .ran (.amount 0) ∧
    compute noOutdoorDf "Outdoor Recreation Revenue By State" = .ran (.series []) :=
  ⟨(empty_data_zero_results zeroRowsDf).1 (by decide) (by decide),
   (empty_data_zero_results noOutdoorDf).2.2.1 (by decide) (by decide) (by decide) (by decide)⟩


/-! ### Claim C3 — Dataset Preparation is idempotent -/

theorem getCol_setCol_ne (df : Dataset) (n c : String) (ws : List Cell) (h : n ≠ c) :
    getCol (setCol df n ws) c = getCol df c := by
  induction df with
  | nil => rfl
  | cons p rest ih =>
      obtain ⟨pn, pv⟩ := p
      by_cases hp : pn = n
      · subst hp
        simp only [setCol, if_pos rfl, getCol]
        rw [if_neg h, if_neg h]
      · simp only [setCol, if_neg hp, getCol]
        by_cases hc : pn = c
        · rw [if_pos hc, if_pos hc]
        · rw [if_neg hc, if_neg hc, ih]

theorem hasCol_setCol (df : Dataset) (n c : String) (ws : List Cell) :
    hasCol (setCol df n ws) c = hasCol df c := by
  induction df with
  | nil => rfl
  | cons p rest ih =>
      obtain ⟨pn, pv⟩ := p
      simp only [hasCol] at ih ⊢
      by_cases hp : pn = n
      · subst hp
        simp [setCol, List.any_cons]
      · simp [setCol, hp, List.any_cons, ih]

theorem getCol_addCol_of_hasCol (df : Dataset) (n c : String) (ws : List Cell)
    (h : hasCol df c = true) : getCol (addCol df n ws) c = getCol df c := by
  induction df with
  | nil => simp [hasCol] at h
  | cons p rest ih =>
      obtain ⟨pn, pv⟩ := p
      by_cases hp : pn = c
      · simp [addCol, getCol, hp]
      · have hrest : hasCol rest c = true := by
          simp only [hasCol, List.any_cons, Bool.or_eq_true_iff] at h
          rcases h with h1 | h1
          · exact absurd (by simpa using h1) hp
          · exact h1
        simp only [addCol, List.cons_append, getCol, hp, if_false]
        exact ih hrest

theorem hasCol_addCol_self (df : Dataset) (c : String) (ws : List Cell) :
    hasCol (addCol df c ws) c = true := by
  induction df with
  | nil => simp [addCol, hasCol]
  | cons p rest ih =>
      simp only [addCol, hasCol, List.cons_append, List.any_cons, Bool.or_eq_true_iff]
      exact Or.inr ih

theorem hasCol_addCol_mono (df : Dataset) (n c : String) (ws : List Cell)
    (h : hasCol df c = true) : hasCol (addCol df n ws) c = true := by
  simp only [hasCol, addCol, List.any_append, Bool.or_eq_true_iff]
  exact Or.inl h

theorem addIfAbsent_of_hasCol (df : Dataset) (c : String) (vs : List Cell)
    (h : hasCol df c = true) : addIfAbsent df c vs = df := by
  simp [addIfAbsent, h]

theorem hasCol_addIfAbsent_self (df : Dataset) (c : String) (vs : List Cell) :
    hasCol (addIfAbsent df c vs) c = true := by
  by_cases h : hasCol df c = true
  · simp [addIfAbsent, h]
  · rw [addIfAbsent, if_neg h]
    exact hasCol_addCol_self df c vs

theorem hasCol_addIfAbsent_mono (df : Dataset) (n c : String) (vs : List Cell)
    (h : hasCol df c = true) : hasCol (addIfAbsent df n vs) c = true := by
  by_cases hn : hasCol df n = true
  · rw [addIfAbsent, if_pos hn]
    exact h
  · rw [addIfAbsent, if_neg hn]
    exact hasCol_addCol_mono df n c vs h

theorem getCol_addIfAbsent_of_hasCol (df : Dataset) (n c : String) (vs : List Cell)
    (h : hasCol df c = true) : getCol (addIfAbsent df n vs) c = getCol df c := by
  by_cases hn : hasCol df n = true
  · rw [addIfAbsent, if_pos hn]
  · rw [addIfAbsent, if_neg hn]
    exact getCol_addCol_of_hasCol df n c vs h

/-- Claim C3: Dataset Preparation is idempotent on the derived columns — a
second application yields exactly the `month` and `quarter` columns of a
single application — and a `month` or `quarter` column already present in
the input is never recomputed (even if inconsistent with `t_date`). -/
theorem prepare_idempotent (df : Dataset) :
    getCol (ensure_datetime_and_derived_columns (ensure_datetime_and_derived_columns df))
        "month" = getCol (ensure_datetime_and_derived_columns df) "month" ∧
    getCol (ensure_datetime_and_derived_columns (ensure_datetime_and_derived_columns df))
        "quarter" = getCol (ensure_datetime_and_derived_columns df) "quarter" ∧
    (hasCol df "month" = true →
      getCol (ensure_datetime_and_derived_columns df) "month" = getCol df "month") ∧
    (hasCol df "quarter" = true →
      getCol (ensure_datetime_and_derived_columns df) "quarter" = getCol df "quarter") := by
  by_cases ht : hasCol df "t_date" = true
  · have hP : ensure_datetime_and_derived_columns df =
        addIfAbsent (addIfAbsent (setCol df "t_date" ((getColD df "t_date").map coerceDate))
            "month" (((getColD df "t_date").map coerceDate).map monthCell))
          "quarter" (((getColD df "t_date").map coerceDate).map quarterCell) := by
      rw [ensure_datetime_and_derived_columns]
      simp only [ht, if_true]
    have hm3 : hasCol (ensure_datetime_and_derived_columns df) "month" = true := by
      rw [hP]
      exact hasCol_addIfAbsent_mono _ _ _ _ (hasCol_addIfAbsent_self _ _ _)
    have hq3 : hasCol (ensure_datetime_and_derived_columns df) "quarter" = true :=
      hP ▸ hasCol_addIfAbsent_self _ _ _
    have ht3 : hasCol (ensure_datetime_and_derived_columns df) "t_date" = true := by
      rw [hP]
      exact hasCol_addIfAbsent_mono _ _ _ _
        (hasCol_addIfAbsent_mono _ _ _ _ ((hasCol_setCol df _ _ _).trans ht))
    have hPP : ensure_datetime_and_derived_columns (ensure_datetime_and_derived_columns df) =
        setCol (ensure_datetime_and_derived_columns df) "t_date"
          ((getColD (ensure_datetime_and_derived_columns df) "t_date").map coerceDate) := by
      rw [ensure_datetime_and_derived_columns]
      simp only [ht3, if_true]
      rw [addIfAbsent_of_hasCol _ _ _ (hasCol_addIfAbsent_mono _ _ _ _
        ((hasCol_setCol _ _ _ _).trans hq3))]
      rw [addIfAbsent_of_hasCol _ _ _ ((hasCol_setCol _ _ _ _).trans hm3)]
    refine ⟨?_, ?_, ?_, ?_⟩
    · rw [hPP, getCol_setCol_ne _ _ _ _ (by decide)]
    · rw [hPP, getCol_setCol_ne _ _ _ _ (by decide)]
    · intro hm
      rw [hP]
      have hm1 : hasCol (setCol df "t_date" ((getColD df "t_date").map coerceDate))
          "month" = true := (hasCol_setCol df _ _ _).trans hm
      rw [getCol_addIfAbsent_of_hasCol _ _ _ _ (hasCol_addIfAbsent_mono _ _ _ _ hm1)]
      rw [addIfAbsent_of_hasCol _ _ _ hm1]
      exact getCol_setCol_ne _ _ _ _ (by decide)
    · intro hq
      rw [hP]
      have hq1 : hasCol (setCol df "t_date" ((getColD df "t_date").map coerceDate))
          "quarter" = true := (hasCol_setCol df _ _ _).trans hq
      rw [getCol_addIfAbsent_of_hasCol _ _ _ _ (hasCol_addIfAbsent_mono _ _ _ _ hq1)]
      rw [getCol_addIfAbsent_of_hasCol _ _ _ _ hq1]
      exact getCol_setCol_ne _ _ _ _ (by decide)
  · have hP : ensure_datetime_and_derived_columns df = df := by
      rw [ensure_datetime_and_derived_columns, if_neg ht]
    rw [hP, hP]
    exact ⟨rfl, rfl, fun _ => rfl, fun _ => rfl⟩

def inconsistentPrepared : Dataset :=
  [("t_date", [Cell.str "2024-03-05", Cell.str "bogus"]),
   ("month", [Cell.str "Zed", Cell.str "Q"]),
   ("quarter", [Cell.str "X", Cell.str "Y"])]

/-- Witness for C3 at a dataset whose caller-supplied `month`/`quarter`
columns are inconsistent with `t_date`: they survive preparation untouched. -/
theorem prepare_idempotent_witness :
    getCol (ensure_datetime_and_derived_columns inconsistentPrepared) "month" =
      getCol inconsistentPrepared "month" ∧
    getCol (ensure_datetime_and_derived_columns inconsistentPrepared) "quarter" =
      getCol inconsistentPrepared "quarter" :=
  ⟨(prepare_idempotent inconsistentPrepared).2.2.1 (by decide),
   (prepare_idempotent inconsistentPrepared).2.2.2 (by decide)⟩

/-! ### Claim C5 — where `t_amt` coercion does and does not happen -/

theorem compute_cases (df : Dataset) (name : String) (req : List String)
    (hreq : requiredCols name = some req) :
    compute df name = runReport df name ∨
      compute df name = .skipped (missingCols df req) := by
  by_cases h : (missingCols df req).isEmpty = true
  · left; simp [compute, hreq, h]
  · right; simp [compute, hreq, h]

theorem groupMeanNum_err_of_str (keys vals : List Cell)
    (h : ∃ p ∈ includedPairs keys vals, p.2.isStr = true) :
    groupMeanNum keys vals = .err := by
  obtain ⟨p, hp, hstr⟩ := h
  rw [groupMeanNum, if_neg]
  intro hall
  rw [List.all_eq_true] at hall
  have hpres : p.2 ∈ presentCells ((includedPairs keys vals).map (fun p => p.2)) := by
    rw [presentCells, List.mem_filter]
    refine ⟨List.mem_map_of_mem _ hp, ?_⟩
    cases hp2 : p.2 <;> rw [hp2] at hstr <;> simp [Cell.isStr] at hstr <;>
      simp [Cell.isMissing]
  have hnum := hall _ hpres
  cases hp2 : p.2 <;> rw [hp2] at hstr hnum <;>
    simp [Cell.isStr, Cell.isNum] at hstr hnum

def mixedAmountsDf : Dataset :=
  [("cust_id", [Cell.str "A", Cell.str "A"]), ("t_amt", [Cell.num 10, Cell.str "abc"])]

/-- Counterexample to C5: the Average Transaction Amount Per Customer branch
aggregates the raw `t_amt` column, so a non-numeric value among its rows
makes the computation raise (`failed`), instead of being coerced to missing
and excluded.  The same data is handled fine by the coercing Total Sales
branch. -/
theorem uncoerced_aggregate_raises :
    compute mixedAmountsDf "Average Transaction Amount Per Customer" = .failed ∧
    compute mixedAmountsDf "Total Sales" = .ran (.amount 10) := by decide

/-- Claim C5 as amended: only the Total Sales and Highest Single Transaction
branches coerce `t_amt` (they never fail on any dataset); the other
aggregating branches operate on the raw column — whenever a present string
sits among the aggregated values of the Average Transaction Amount Per
Customer report, that computation fails instead of excluding the value. -/
theorem coercion_only_in_scalar_branches (df : Dataset) :
    compute df "Total Sales" ≠ .failed ∧
    compute df "Highest Single Transaction" ≠ .failed ∧
    (hasCol df "cust_id" = true → hasCol df "t_amt" = true →
      (∃ p ∈ includedPairs (getColD df "cust_id") (getColD df "t_amt"), p.2.isStr = true) →
      compute df "Average Transaction Amount Per Customer" = .failed) := by
  refine ⟨?_, ?_, ?_⟩
  · rcases compute_cases df "Total Sales" ["t_amt"] rfl with h | h <;> rw [h]
    · show Outcome.ran (.amount (total_sales df)) ≠ .failed
      intro hcc
      exact Outcome.noConfusion hcc
    · intro hcc
      exact Outcome.noConfusion hcc
  · rcases compute_cases df "Highest Single Transaction" ["t_amt"] rfl with h | h <;> rw [h]
    · show Outcome.ran (.amountOpt (highest_single_transaction df)) ≠ .failed
      intro hcc
      exact Outcome.noConfusion hcc
    · intro hcc
      exact Outcome.noConfusion hcc
  · intro hc ha hstr
    have hcols : missingCols df ["cust_id", "t_amt"] = [] := by
      simp [missingCols, hc, ha]
    rw [compute_run df "Average Transaction Amount Per Customer"
      ["cust_id", "t_amt"] rfl hcols]
    show (match average_transaction_amount_per_customer df with
      | .ok l => Outcome.ran (.meanSeries l)
      | .err => .failed) = .failed
    rw [average_transaction_amount_per_customer,
      groupMeanNum_err_of_str _ _ hstr]

/-- Witness for the amended C5 at the counterexample dataset. -/
theorem coercion_only_in_scalar_branches_witness :
    compute mixedAmountsDf "Average Transaction Amount Per Customer" = .failed :=
  (coercion_only_in_scalar_branches mixedAmountsDf).2.2 (by decide) (by decide)
    ⟨(Cell.str "A", Cell.str "abc"), by decide, by decide⟩

/-! ### Claim C10 — grouping drops rows with a missing key -/

theorem includedPairs_key_not_missing {keys vals : List Cell} {p : Cell × Cell}
    (h : p ∈ includedPairs keys vals) : p.1 ≠ Cell.missing := by
  rw [includedPairs, List.mem_filter] at h
  intro heq
  rw [heq] at h
  simp [Cell.isMissing] at h

theorem groupRows_key_not_missing {keys vals : List Cell} {g : Cell × List Cell}
    (h : g ∈ groupRows keys vals) : g.1 ≠ Cell.missing := by
  rw [groupRows] at h
  obtain ⟨k, hk, hkg⟩ := List.mem_map.mp h
  obtain ⟨p, hp, hpk⟩ := List.mem_map.mp (mem_firstDistinct.mp hk)
  have : p.1 ≠ Cell.missing := includedPairs_key_not_missing hp
  rw [← hkg]
  exact hpk ▸ this

theorem groupAggSum_ok_keys {keys vals : List Cell} {st : List (Cell × Cell)}
    (h : groupAggSum keys vals = .ok st) : ∀ p ∈ st, p.1 ≠ Cell.missing := by
  rw [groupAggSum] at h
  by_cases h1 : (presentCells ((includedPairs keys vals).map (fun p => p.2))).all
      (fun c => c.isNum) = true
  · rw [if_pos h1] at h
    obtain rfl : ((groupRows keys vals).map (fun g => (g.1, Cell.num (sumPresent g.2)))) = st :=
      by injection h
    intro p hp
    obtain ⟨g, hg, hgp⟩ := List.mem_map.mp hp
    have := groupRows_key_not_missing hg
    rw [← hgp]
    exact this
  · rw [if_neg h1] at h
    by_cases h2 : (presentCells ((includedPairs keys vals).map (fun p => p.2))).all
        (fun c => c.isStr) = true
    · rw [if_pos h2] at h
      obtain rfl : ((groupRows keys vals).map (fun g => (g.1, Cell.str (concatPresent g.2)))) = st :=
        by injection h
      intro p hp
      obtain ⟨g, hg, hgp⟩ := List.mem_map.mp hp
      have := groupRows_key_not_missing hg
      rw [← hgp]
      exact this
    · rw [if_neg h2] at h
      exact absurd h (by intro hcc; exact Res.noConfusion hcc)

/-- Inversion for branches rendering a sorted series with an `idxmax`
banner. -/
theorem seriesTop_inv {r : Res (List (Cell × Cell) × Cell)} {l : List (Cell × Cell)}
    {top : Cell}
    (h : (match r with
      | .ok (l, t) => Outcome.ran (.seriesTop l t)
      | .err => Outcome.failed) = .ran (.seriesTop l top)) : r = .ok (l, top) := by
  cases r with
  | err =>
      have h2 : Outcome.failed = .ran (.seriesTop l top) := h
      exact absurd h2 (by intro hcc; exact Outcome.noConfusion hcc)
  | ok p =>
      obtain ⟨lr, tr⟩ := p
      have h2 : Outcome.ran (.seriesTop lr tr) = .ran (.seriesTop l top) := h
      injection h2 with h3
      injection h3 with h4 h5
      rw [h4, h5]

/-- Any entry of the sorted output of a successful raw group sum has a
present key. -/
theorem sorted_aggSum_keys {keys vals : List Cell} {st : List (Cell × Cell)}
    (hga : groupAggSum keys vals = .ok st) {p : Cell × Cell}
    (hp : p ∈ sortValsDesc st) : p.1 ≠ Cell.missing :=
  groupAggSum_ok_keys hga p (mem_sortBy.mp hp)

/-- Claim C10: grouped reports exclude rows whose grouping key is missing —
no "missing" group appears in the Revenue By Service or State With Highest
Total Sales mappings, nor among the row or column labels of the Services
Popularity By State pivot (groupby/pivot defaults drop NaN keys). -/
theorem grouped_reports_drop_missing_keys (df : Dataset) :
    (∀ l top, compute df "Revenue By Service" = .ran (.seriesTop l top) →
      ∀ p ∈ l, p.1 ≠ Cell.missing) ∧
    (∀ l top, compute df "State With Highest Total Sales" = .ran (.seriesTop l top) →
      ∀ p ∈ l, p.1 ≠ Cell.missing) ∧
    (∀ t cols, compute df "Services Popularity By State (Counts)" = .ran (.pivotCounts t cols) →
      (∀ row ∈ t, row.1 ≠ Cell.missing) ∧ (∀ c ∈ cols, c ≠ Cell.missing)) := by
  refine ⟨?_, ?_, ?_⟩
  · intro l top h
    rcases compute_cases df "Revenue By Service" ["services", "t_amt"] rfl with hc | hc <;>
      rw [hc] at h
    · have hr : revenue_by_service df = .ok (l, top) := seriesTop_inv h
      rw [revenue_by_service] at hr
      cases hga : groupAggSum (getColD df "services") (getColD df "t_amt") with
      | err =>
          rw [hga] at hr
          exact absurd hr (by intro hcc; exact Res.noConfusion hcc)
      | ok st =>
          rw [hga] at hr
          dsimp only at hr
          intro p hp
          cases hsv : sortValsDesc st with
          | nil =>
              rw [hsv] at hr
              exact absurd hr (by intro hcc; exact Res.noConfusion hcc)
          | cons a rest =>
              rw [hsv] at hr
              have h2 : Res.ok (α := List (Cell × Cell) × Cell) (a :: rest, a.1) =
                  .ok (l, top) := hr
              injection h2 with h3
              injection h3 with h4 h5
              rw [← h4] at hp
              exact sorted_aggSum_keys hga (hsv ▸ hp)
    · exact absurd h (by intro hcc; exact Outcome.noConfusion hcc)
  · intro l top h
    rcases compute_cases df "State With Highest Total Sales" ["state", "t_amt"] rfl with hc | hc <;>
      rw [hc] at h
    · have hr : state_with_highest_total_sales df = .ok (l, top) := seriesTop_inv h
      rw [state_with_highest_total_sales] at hr
      cases hga : groupAggSum (getColD df "state") (getColD df "t_amt") with
      | err =>
          rw [hga] at hr
          exact absurd hr (by intro hcc; exact Res.noConfusion hcc)
      | ok st =>
          rw [hga] at hr
          dsimp only at hr
          intro p hp
          cases hsv : sortValsDesc st with
          | nil =>
              rw [hsv] at hr
              exact absurd hr (by intro hcc; exact Res.noConfusion hcc)
          | cons a rest =>
              rw [hsv] at hr
              have h2 : Res.ok (α := List (Cell × Cell) × Cell) ((a :: rest).take 10, a.1) =
                  .ok (l, top) := hr
              injection h2 with h3
              injection h3 with h4 h5
              rw [← h4] at hp
              have hp2 : p ∈ a :: rest := List.mem_of_mem_take hp
              exact sorted_aggSum_keys hga (hsv ▸ hp2)
    · exact absurd h (by intro hcc; exact Outcome.noConfusion hcc)
  · intro t cols h
    rcases compute_cases df "Services Popularity By State (Counts)" ["state", "services"]
      rfl with hc | hc <;> rw [hc] at h
    · have h2 : Outcome.ran (.pivotCounts (services_popularity_by_state df).1
          (services_popularity_by_state df).2) = .ran (.pivotCounts t cols) := h
      injection h2 with h3
      injection h3 with h4 h5
      constructor
      · intro row hrow
        rw [← h4] at hrow
        rw [services_popularity_by_state] at hrow
        obtain ⟨r, hr, hrrow⟩ := List.mem_map.mp hrow
        obtain ⟨p, hp, hpr⟩ := List.mem_map.mp (mem_firstDistinct.mp hr)
        rw [List.mem_filter] at hp
        rw [← hrrow]
        show r ≠ Cell.missing
        rw [← hpr]
        intro heq
        rw [heq] at hp
        simp [Cell.isMissing] at hp
      · intro c hcc
        rw [← h5] at hcc
        rw [services_popularity_by_state] at hcc
        obtain ⟨p, hp, hpc⟩ := List.mem_map.mp (mem_firstDistinct.mp hcc)
        rw [List.mem_filter] at hp
        rw [← hpc]
        intro heq
        rw [heq] at hp
        simp [Cell.isMissing] at hp
    · exact absurd h (by intro hcc; exact Outcome.noConfusion hcc)

def dropKeyDf : Dataset :=
  [("services", [Cell.str "S", Cell.missing]), ("state", [Cell.str "CA", Cell.missing]),
   ("t_amt", [Cell.num 1, Cell.num 2])]

/-- Witness for C10 at a dataset with one present and one missing key. -/
theorem grouped_reports_drop_missing_keys_witness :
    (Cell.str "S", Cell.num (1 : Rat)).1 ≠ Cell.missing :=
  (grouped_reports_drop_missing_keys dropKeyDf).1 [(Cell.str "S", Cell.num 1)] (Cell.str "S")
    (by decide) (Cell.str "S", Cell.num 1) (by decide)

/-! ### Claim C8 — Top Customers By Spend and the user-chosen N -/

/-- Modelled from the spec: the top-N customers by total spend for a
user-chosen N between 5 and 50 — per-customer sums sorted descending,
truncated to N. -/
def topNBySpend (df : Dataset) (n : Nat) : Res (List (Cell × Cell)) :=
  match groupAggSum (getColD df "cust_id") (getColD df "t_amt") with
  | .err => .err
  | .ok ct => .ok ((sortValsDesc ct).take n)

def sevenCustomers : Dataset :=
  [("cust_id", [Cell.str "a", Cell.str "b", Cell.str "c", Cell.str "d", Cell.str "e",
    Cell.str "f", Cell.str "g"]),
   ("t_amt", [Cell.num 70, Cell.num 60, Cell.num 50, Cell.num 40, Cell.num 30,
    Cell.num 20, Cell.num 10])]

/-- Counterexample to C8: there is no user-chosen N — on seven customers the
branch displays exactly 5 entries (`head(10)` then `head()`), while N = 7,
inside the claimed 5-50 range, would require the top 7. -/
theorem topCustomers_no_user_chosen_n :
    (5 ≤ 7 ∧ 7 ≤ 50) ∧
    compute sevenCustomers "Top Customers By Spend" =
      .ran (.series [(Cell.str "a", Cell.num 70), (Cell.str "b", Cell.num 60),
        (Cell.str "c", Cell.num 50), (Cell.str "d", Cell.num 40),
        (Cell.str "e", Cell.num 30)]) ∧
    topNBySpend sevenCustomers 7 =
      .ok [(Cell.str "a", Cell.num 70), (Cell.str "b", Cell.num 60),
        (Cell.str "c", Cell.num 50), (Cell.str "d", Cell.num 40),
        (Cell.str "e", Cell.num 30), (Cell.str "f", Cell.num 20),
        (Cell.str "g", Cell.num 10)] ∧
    ([(Cell.str "a", Cell.num 70), (Cell.str "b", Cell.num 60),
      (Cell.str "c", Cell.num 50), (Cell.str "d", Cell.num 40),
      (Cell.str "e", Cell.num 30)] : List (Cell × Cell)) ≠
      [(Cell.str "a", Cell.num 70), (Cell.str "b", Cell.num 60),
        (Cell.str "c", Cell.num 50), (Cell.str "d", Cell.num 40),
        (Cell.str "e", Cell.num 30), (Cell.str "f", Cell.num 20),
        (Cell.str "g", Cell.num 10)] := by decide

theorem series_inv {r : Res (List (Cell × Cell))} {l : List (Cell × Cell)}
    (h : (match r with
      | .ok l => Outcome.ran (.series l)
      | .err => Outcome.failed) = .ran (.series l)) : r = .ok l := by
  cases r with
  | err =>
      have h2 : Outcome.failed = .ran (.series l) := h
      exact absurd h2 (by intro hcc; exact Outcome.noConfusion hcc)
  | ok lr =>
      have h2 : Outcome.ran (.series lr) = .ran (.series l) := h
      injection h2 with h3
      injection h3 with h4
      rw [h4]

/-- Claim C8 as amended: the branch groups by `cust_id`, sums the raw
`t_amt`, sorts descending, truncates to 10, and displays the first 5 of
those — a fixed count, not a user-chosen N.  The displayed entries are
customer-sum pairs, sorted descending, numbering `min 5 #customers`, and
every displayed entry dominates every undisplayed customer. -/
theorem topCustomers_first_five (df : Dataset) (l : List (Cell × Cell))
    (h : compute df "Top Customers By Spend" = .ran (.series l)) :
    l.length ≤ 5 ∧
    ∃ sums, groupAggSum (getColD df "cust_id") (getColD df "t_amt") = .ok sums ∧
      l.length = min 5 sums.length ∧
      l.Pairwise (fun p q => cellLe q.2 p.2 = true) ∧
      (∀ p ∈ l, p ∈ sums) ∧
      (∀ p ∈ l, ∀ q ∈ sums, q ∉ l → cellLe q.2 p.2 = true) := by
  rcases compute_cases df "Top Customers By Spend" ["cust_id", "t_amt"] rfl with hc | hc <;>
    rw [hc] at h
  swap
  · exact absurd h (by intro hcc; exact Outcome.noConfusion hcc)
  have hr : top_customers_by_spend df = .ok l := series_inv h
  rw [top_customers_by_spend] at hr
  cases hga : groupAggSum (getColD df "cust_id") (getColD df "t_amt") with
  | err =>
      rw [hga] at hr
      exact absurd hr (by intro hcc; exact Res.noConfusion hcc)
  | ok ct =>
      rw [hga] at hr
      dsimp only at hr
      have hl : l = ((sortValsDesc ct).take 10).take 5 := by
        have h2 : Res.ok (α := List (Cell × Cell)) (((sortValsDesc ct).take 10).take 5) =
            .ok l := hr
        injection h2 with h3
        rw [h3]
      have hl5 : l = (sortValsDesc ct).take 5 := by
        rw [hl, List.take_take]
        norm_num
      have hsortlen : (sortValsDesc ct).length = ct.length :=
        (sortBy_perm _ ct).length_eq
      have hpair : (sortValsDesc ct).Pairwise (fun p q => cellLe q.2 p.2 = true) :=
        pairwise_sortBy (fun a b => cellLe b.2 a.2)
          (fun a b c h1 h2 => by
            have h1b : cellLe b.2 a.2 = true := h1
            have h2b : cellLe c.2 b.2 = true := h2
            show cellLe c.2 a.2 = true
            exact cellLe_trans h2b h1b)
          (fun a b => by
            show cellLe b.2 a.2 = true ∨ cellLe a.2 b.2 = true
            exact cellLe_total b.2 a.2) ct
      constructor
      · rw [hl5, List.length_take]
        exact min_le_left _ _
      refine ⟨ct, rfl, ?_, ?_, ?_, ?_⟩
      · rw [hl5, List.length_take, hsortlen]
      · rw [hl5]
        exact hpair.sublist (List.take_sublist 5 _)
      · intro p hp
        rw [hl5] at hp
        exact mem_sortBy.mp (List.mem_of_mem_take hp)
      · intro p hp q hq hqnot
        have hqsorted : q ∈ sortValsDesc ct := mem_sortBy.mpr hq
        have hsplit : (sortValsDesc ct) =
            (sortValsDesc ct).take 5 ++ (sortValsDesc ct).drop 5 :=
          (List.take_append_drop 5 _).symm
        have hqdrop : q ∈ (sortValsDesc ct).drop 5 := by
          rcases List.mem_append.mp (hsplit ▸ hqsorted) with hcase | hcase
          · exact absurd (hl5 ▸ hcase) hqnot
          · exact hcase
        have hpair2 := hsplit ▸ hpair
        rcases List.pairwise_append.mp hpair2 with ⟨_, _, hcross⟩
        exact hcross p (hl5 ▸ hp) q hqdrop

/-- Witness for the amended C8: at the seven-customer dataset the displayed
list has at most 5 entries. -/
theorem topCustomers_first_five_witness :
    ([(Cell.str "a", Cell.num 70), (Cell.str "b", Cell.num 60),
      (Cell.str "c", Cell.num 50), (Cell.str "d", Cell.num 40),
      (Cell.str "e", Cell.num 30)] : List (Cell × Cell)).length ≤ 5 :=
  (topCustomers_first_five sevenCustomers
    [(Cell.str "a", Cell.num 70), (Cell.str "b", Cell.num 60),
     (Cell.str "c", Cell.num 50), (Cell.str "d", Cell.num 40),
     (Cell.str "e", Cell.num 30)] (by decide)).1

/-! ### Claim C6 — Revenue By Service round-trips with restricted Total Sales -/

theorem sum_map_filter_split {β : Type} (f : β → Rat) (q : β → Bool) (ps : List β) :
    ((ps.filter q).map f).sum + ((ps.filter (fun p => !q p)).map f).sum = (ps.map f).sum := by
  induction ps with
  | nil => simp
  | cons p ps ih =>
      by_cases hq : q p = true
      · rw [List.filter_cons_of_pos (by simp [hq]), List.filter_cons_of_neg (by simp [hq])]
        simp only [List.map_cons, List.sum_cons]
        rw [add_assoc, ih]
      · rw [List.filter_cons_of_neg (by simp [hq]), List.filter_cons_of_pos (by simp [hq])]
        simp only [List.map_cons, List.sum_cons]
        rw [add_left_comm, ih]

theorem sum_over_keylist {α β : Type} [DecidableEq α] (f : β → Rat) :
    ∀ (ks : List α) (ps : List (α × β)), ks.Nodup → (∀ p ∈ ps, p.1 ∈ ks) →
      (ks.map (fun k =>
        ((ps.filter (fun p => decide (p.1 = k))).map (fun p => f p.2)).sum)).sum
        = (ps.map (fun p => f p.2)).sum := by
  intro ks
  induction ks with
  | nil =>
      intro ps _ hcov
      cases ps with
      | nil => simp
      | cons p ps => exact absurd (hcov p (List.mem_cons_self p ps)) (List.not_mem_nil _)
  | cons k ks ih =>
      intro ps hnd hcov
      rcases List.nodup_cons.mp hnd with ⟨hk, hnd2⟩
      simp only [List.map_cons, List.sum_cons]
      have hrest : ∀ k2 ∈ ks, (ps.filter (fun p => decide (p.1 = k2)))
          = ((ps.filter (fun p => !decide (p.1 = k))).filter (fun p => decide (p.1 = k2))) := by
        intro k2 hk2
        rw [List.filter_filter]
        refine (List.filter_congr ?_).symm
        intro p _
        have hk2k : ¬ k2 = k := fun hcc => hk (hcc ▸ hk2)
        by_cases hpk2 : p.1 = k2
        · have hpk : ¬ p.1 = k := fun hcc => hk2k (hpk2 ▸ hcc)
          simp [hpk2, hpk, hk2k]
        · simp [hpk2]
      have hmapeq : ks.map (fun k2 =>
            ((ps.filter (fun p => decide (p.1 = k2))).map (fun p => f p.2)).sum)
          = ks.map (fun k2 =>
            (((ps.filter (fun p => !decide (p.1 = k))).filter
              (fun p => decide (p.1 = k2))).map (fun p => f p.2)).sum) := by
        refine List.map_congr_left ?_
        intro k2 hk2
        rw [hrest k2 hk2]
      rw [hmapeq]
      have hcov2 : ∀ p ∈ ps.filter (fun p => !decide (p.1 = k)), p.1 ∈ ks := by
        intro p hp
        rcases List.mem_filter.mp hp with ⟨hmem, hcond⟩
        rcases List.mem_cons.mp (hcov p hmem) with hcc | hcc
        · rw [hcc] at hcond
          simp at hcond
        · exact hcc
      rw [ih (ps.filter (fun p => !decide (p.1 = k))) hnd2 hcov2]
      exact sum_map_filter_split (fun p => f p.2) (fun p => decide (p.1 = k)) ps

/-- The present-value of a cell: its number, or 0 for anything else.  Sums
of numeric-or-missing cells factor through it. -/
def numOrZero (c : Cell) : Rat := (numOf c).getD 0

theorem sumPresent_eq_map_sum (cs : List Cell) :
    sumPresent cs = (cs.map numOrZero).sum := by
  rw [sumPresent, rSum_eq, sum_filterMap_getD numOf cs]
  rfl

theorem map_numOrZero_sum (cs : List Cell) :
    (cs.map numOrZero).sum = (cs.filterMap numOf).sum :=
  (sum_filterMap_getD numOf cs).symm

/-- Partition identity: the per-group raw sums of a grouped column add up to
the raw sum over all rows with a present key. -/
theorem groupRows_sum (keys vals : List Cell) :
    ((groupRows keys vals).map (fun g => sumPresent g.2)).sum
      = sumPresent ((includedPairs keys vals).map (fun p => p.2)) := by
  rw [groupRows]
  have hnd := nodup_firstDistinct ((includedPairs keys vals).map (fun p => p.1))
  have hcov : ∀ p ∈ includedPairs keys vals,
      p.1 ∈ firstDistinct ((includedPairs keys vals).map (fun p => p.1)) := by
    intro p hp
    exact mem_firstDistinct.mpr (List.mem_map_of_mem _ hp)
  have hkey := sum_over_keylist numOrZero
    (firstDistinct ((includedPairs keys vals).map (fun p => p.1)))
    (includedPairs keys vals) hnd hcov
  rw [List.map_map]
  have hinner : ((firstDistinct ((includedPairs keys vals).map (fun p => p.1))).map
        ((fun g => sumPresent g.2) ∘ fun k =>
          (k, ((includedPairs keys vals).filter (fun p => decide (p.1 = k))).map
            (fun p => p.2))))
      = (firstDistinct ((includedPairs keys vals).map (fun p => p.1))).map
        (fun k => (((includedPairs keys vals).filter (fun p => decide (p.1 = k))).map
          (fun p => numOrZero p.2)).sum) := by
    refine List.map_congr_left ?_
    intro k _
    show sumPresent (((includedPairs keys vals).filter (fun p => decide (p.1 = k))).map
      (fun p => p.2)) = _
    rw [sumPresent_eq_map_sum, List.map_map]
    rfl
  rw [hinner, hkey, sumPresent_eq_map_sum, List.map_map]
  rfl

/-- `Total Sales` restricted to rows with a present `services` value: the
coerced `t_amt` sum over exactly those rows. -/
def total_sales_restricted (df : Dataset) : Rat :=
  rSum (((includedPairs (getColD df "services") (getColD df "t_amt")).map
    (fun p => p.2)).filterMap coerceNum)

def mixedServicesDf : Dataset :=
  [("services", [Cell.str "A", Cell.str "A"]), ("t_amt", [Cell.num 10, Cell.str "x"])]

/-- Counterexample to C6: on a dataset with a non-numeric `t_amt` value the
Revenue By Service branch raises (groupby sum over a mixed object column),
so no per-service totals exist to round-trip, while the restricted Total
Sales is well-defined (10). -/
theorem revenue_roundtrip_fails_on_strings :
    compute mixedServicesDf "Revenue By Service" = .failed ∧
    total_sales_restricted mixedServicesDf = 10 := by decide

/-- Claim C6 as amended: whenever Revenue By Service succeeds with numeric
per-service totals, their sum equals the Total Sales computed over only the
rows whose `services` value is present. -/
theorem revenue_by_service_roundtrip (df : Dataset) (l : List (Cell × Cell)) (top : Cell)
    (h : compute df "Revenue By Service" = .ran (.seriesTop l top))
    (hnum : ∀ p ∈ l, Cell.isNum p.2 = true) :
    (l.map (fun p => numOrZero p.2)).sum = total_sales_restricted df := by
  rcases compute_cases df "Revenue By Service" ["services", "t_amt"] rfl with hc | hc <;>
    rw [hc] at h
  swap
  · exact absurd h (by intro hcc; exact Outcome.noConfusion hcc)
  have hr : revenue_by_service df = .ok (l, top) := seriesTop_inv h
  rw [revenue_by_service] at hr
  set keys := getColD df "services" with hkeys
  set vals := getColD df "t_amt" with hvals
  rw [groupAggSum] at hr
  by_cases h1 : (presentCells ((includedPairs keys vals).map (fun p => p.2))).all
      (fun c => c.isNum) = true
  · rw [if_pos h1] at hr
    dsimp only at hr
    set st := (groupRows keys vals).map (fun g => (g.1, Cell.num (sumPresent g.2))) with hst
    have hsort : sortValsDesc st ≠ [] ∧ l = sortValsDesc st := by
      cases hsv : sortValsDesc st with
      | nil =>
          rw [hsv] at hr
          exact absurd hr (by intro hcc; exact Res.noConfusion hcc)
      | cons a rest =>
          rw [hsv] at hr
          have h2 : Res.ok (α := List (Cell × Cell) × Cell) (a :: rest, a.1) = .ok (l, top) := hr
          injection h2 with h3
          injection h3 with h4 h5
          exact ⟨by simp, h4 ▸ (hsv ▸ rfl)⟩
    have hperm : (l.map (fun p => numOrZero p.2)).sum
        = (st.map (fun p => numOrZero p.2)).sum := by
      rw [hsort.2]
      exact ((sortBy_perm _ st).map _).sum_eq
    rw [hperm, hst, List.map_map]
    have hmap : (groupRows keys vals).map
          ((fun p => numOrZero p.2) ∘ fun g => (g.1, Cell.num (sumPresent g.2)))
        = (groupRows keys vals).map (fun g => sumPresent g.2) := by
      refine List.map_congr_left ?_
      intro g _
      show numOrZero (Cell.num (sumPresent g.2)) = sumPresent g.2
      rfl
    rw [hmap, groupRows_sum, total_sales_restricted, rSum_eq, sumPresent_eq_map_sum]
    rw [← hkeys, ← hvals, map_numOrZero_sum]
    have hcongr : ((includedPairs keys vals).map (fun p => p.2)).filterMap numOf
        = ((includedPairs keys vals).map (fun p => p.2)).filterMap coerceNum := by
      refine List.filterMap_congr ?_
      intro c hcmem
      rw [List.all_eq_true] at h1
      by_cases hm : c.isMissing = true
      · cases c <;> simp [Cell.isMissing] at hm <;> rfl
      · have hcp : c ∈ presentCells ((includedPairs keys vals).map (fun p => p.2)) := by
          rw [presentCells, List.mem_filter]
          exact ⟨hcmem, by simp [hm]⟩
        have := h1 c hcp
        cases c <;> simp [Cell.isNum] at this <;> rfl
    rw [hcongr]
  · rw [if_neg h1] at hr
    by_cases h2 : (presentCells ((includedPairs keys vals).map (fun p => p.2))).all
        (fun c => c.isStr) = true
    · rw [if_pos h2] at hr
      dsimp only at hr
      set st := (groupRows keys vals).map (fun g => (g.1, Cell.str (concatPresent g.2))) with hst
      cases hsv : sortValsDesc st with
      | nil =>
          rw [hsv] at hr
          exact absurd hr (by intro hcc; exact Res.noConfusion hcc)
      | cons a rest =>
          rw [hsv] at hr
          have h3 : Res.ok (α := List (Cell × Cell) × Cell) (a :: rest, a.1) = .ok (l, top) := hr
          injection h3 with h4
          injection h4 with h5 h6
          have hamem : a ∈ l := by
            rw [← h5]
            exact List.mem_cons_self _ _
          have hast : a ∈ st := mem_sortBy.mp (hsv ▸ List.mem_cons_self a rest)
          rw [hst] at hast
          obtain ⟨g, hg, hga⟩ := List.mem_map.mp hast
          have hisnum : Cell.isNum a.2 = true := hnum a hamem
          rw [← hga] at hisnum
          simp [Cell.isNum] at hisnum
    · rw [if_neg h2] at hr
      exact absurd hr (by intro hcc; exact Res.noConfusion hcc)

def roundtripDf : Dataset :=
  [("services", [Cell.str "A", Cell.missing]), ("t_amt", [Cell.num 10, Cell.num 99])]

/-- Witness for the amended C6: one present service row of 10 and one
missing-service row of 99 round-trip to a restricted total of 10. -/
theorem revenue_by_service_roundtrip_witness :
    (([(Cell.str "A", Cell.num 10)] : List (Cell × Cell)).map
      (fun p => numOrZero p.2)).sum = total_sales_restricted roundtripDf :=
  revenue_by_service_roundtrip roundtripDf [(Cell.str "A", Cell.num 10)] (Cell.str "A")
    (by decide) (by decide)

/-! ### Claim C7 — High Total, Low Avg Products selection -/

theorem qGeB_iff (t : Rat) (thr : Option Rat) :
    qGeB t thr = true ↔ ∃ q, thr = some q ∧ q ≤ t := by
  cases thr with
  | none => simp [qGeB]
  | some q => simp [qGeB, ratLeB_iff]

theorem optLeB_iff (a m : Option Rat) :
    optLeB a m = true ↔ ∃ x y, a = some x ∧ m = some y ∧ x ≤ y := by
  cases a with
  | none => simp [optLeB]
  | some x =>
      cases m with
      | none => simp [optLeB]
      | some y => simp [optLeB, ratLeB_iff]

theorem scoredSeries_inv {r : Res (List (Cell × Rat × Option Rat))}
    {l : List (Cell × Rat × Option Rat)}
    (h : (match r with
      | .ok l => Outcome.ran (.scoredSeries l)
      | .err => Outcome.failed) = .ran (.scoredSeries l)) : r = .ok l := by
  cases r with
  | err =>
      have h2 : Outcome.failed = .ran (.scoredSeries l) := h
      exact absurd h2 (by intro hcc; exact Outcome.noConfusion hcc)
  | ok lr =>
      have h2 : Outcome.ran (.scoredSeries lr) = .ran (.scoredSeries l) := h
      injection h2 with h3
      injection h3 with h4
      rw [h4]

theorem high_total_low_avg_eq (df : Dataset)
    (hg : (presentCells ((includedPairs (getColD df "products_used")
      (getColD df "t_amt")).map (fun p => p.2))).all (fun c => c.isNum) = true) :
    high_total_low_avg_products df = .ok (sortBy (fun a b => ratLeB b.2.1 a.2.1)
      ((keyTotalsAndMeans (getColD df "products_used") (getColD df "t_amt")).filter
        (fun e => qGeB e.2.1 (quantileLin 3 4
            ((keyTotalsAndMeans (getColD df "products_used") (getColD df "t_amt")).map
              (fun e => e.2.1))) &&
          optLeB e.2.2 (medianSkipna
            ((keyTotalsAndMeans (getColD df "products_used") (getColD df "t_amt")).map
              (fun e => e.2.2)))))) := by
  rw [high_total_low_avg_products, if_pos hg]

/-- Claim C7: whenever the High Total, Low Avg Products branch computes a
result, its entries are exactly the per-product table rows whose raw total
is at least the 0.75 linear-interpolation quantile of all per-product totals
AND whose raw mean is at most the median of all per-product means (both
conditions required), ordered descending by total. -/
theorem highTotalLowAvg_selection (df : Dataset) (res : List (Cell × Rat × Option Rat))
    (h : compute df "High Total, Low Avg Products" = .ran (.scoredSeries res)) :
    (∀ x, x ∈ res ↔
      (x ∈ keyTotalsAndMeans (getColD df "products_used") (getColD df "t_amt") ∧
        (∃ thr, quantileLin 3 4 ((keyTotalsAndMeans (getColD df "products_used")
            (getColD df "t_amt")).map (fun e => e.2.1)) = some thr ∧ thr ≤ x.2.1) ∧
        (∃ a med, x.2.2 = some a ∧ medianSkipna ((keyTotalsAndMeans
            (getColD df "products_used") (getColD df "t_amt")).map
              (fun e => e.2.2)) = some med ∧ a ≤ med))) ∧
    res.Pairwise (fun p q => q.2.1 ≤ p.2.1) := by
  rcases compute_cases df "High Total, Low Avg Products" ["products_used", "t_amt"]
    rfl with hc | hc <;> rw [hc] at h
  swap
  · exact absurd h (by intro hcc; exact Outcome.noConfusion hcc)
  have hr : high_total_low_avg_products df = .ok res := scoredSeries_inv h
  by_cases hg : (presentCells ((includedPairs (getColD df "products_used")
      (getColD df "t_amt")).map (fun p => p.2))).all (fun c => c.isNum) = true
  case neg =>
    rw [high_total_low_avg_products, if_neg hg] at hr
    exact absurd hr (by intro hcc; exact Res.noConfusion hcc)
  rw [high_total_low_avg_eq df hg] at hr
  have hres : res = sortBy (fun a b => ratLeB b.2.1 a.2.1)
      ((keyTotalsAndMeans (getColD df "products_used") (getColD df "t_amt")).filter
        (fun e => qGeB e.2.1 (quantileLin 3 4
            ((keyTotalsAndMeans (getColD df "products_used") (getColD df "t_amt")).map
              (fun e => e.2.1))) &&
          optLeB e.2.2 (medianSkipna
            ((keyTotalsAndMeans (getColD df "products_used") (getColD df "t_amt")).map
              (fun e => e.2.2))))) := by
    injection hr with h2
    rw [h2]
  constructor
  · intro x
    rw [hres, mem_sortBy, List.mem_filter, Bool.and_eq_true, qGeB_iff, optLeB_iff]
  · rw [hres]
    have hpair := pairwise_sortBy (fun (a b : Cell × Rat × Option Rat) => ratLeB b.2.1 a.2.1)
      (fun a b c h1 h2 => by
        have h1b : ratLeB b.2.1 a.2.1 = true := h1
        have h2b : ratLeB c.2.1 b.2.1 = true := h2
        show ratLeB c.2.1 a.2.1 = true
        exact ratLeB_trans h2b h1b)
      (fun a b => by
        show ratLeB b.2.1 a.2.1 = true ∨ ratLeB a.2.1 b.2.1 = true
        exact (ratLeB_total b.2.1 a.2.1).imp id id)
      ((keyTotalsAndMeans (getColD df "products_used") (getColD df "t_amt")).filter
        (fun e => qGeB e.2.1 (quantileLin 3 4
            ((keyTotalsAndMeans (getColD df "products_used") (getColD df "t_amt")).map
              (fun e => e.2.1))) &&
          optLeB e.2.2 (medianSkipna
            ((keyTotalsAndMeans (getColD df "products_used") (getColD df "t_amt")).map
              (fun e => e.2.2)))))
    refine hpair.imp ?_
    intro p q hpq
    exact (ratLeB_iff q.2.1 p.2.1).mp hpq

def highLowDf : Dataset :=
  [("products_used", [Cell.str "A", Cell.str "A", Cell.str "B", Cell.str "C", Cell.str "D"]),
   ("t_amt", [Cell.num 50, Cell.num 50, Cell.num 90, Cell.num 80, Cell.num 70])]

/-- Witness for C7 at per-product totals [100, 90, 80, 70] and means
[50, 90, 80, 70]: the 0.75 quantile of the totals is 92.5 and the median
mean is 75, so exactly the product with total 100 and mean 50 is selected. -/
theorem highTotalLowAvg_selection_witness :
    ([(Cell.str "A", (100 : Rat), some (50 : Rat))] :
      List (Cell × Rat × Option Rat)).Pairwise (fun p q => q.2.1 ≤ p.2.1) :=
  (highTotalLowAvg_selection highLowDf [(Cell.str "A", 100, some 50)] (by decide)).2
